import Mathlib

set_option linter.unusedVariables false

/-! Shallow embedding of the deterministic startup-investor fit-scoring
engine `thesis_fit_pipeline_v2.py` of the Frictionless repository.

Modelling conventions, used throughout:
* Python floats are rationals (`ℚ`); every arithmetic operation the engine
  performs on them (sums of small integer constants, divisions, order
  comparisons) is exact, so no floating-point rounding behaviour is load
  bearing for any statement below.
* Python `None` is `Option.none`; a normalized profile field of type
  float-or-None becomes `Option ℚ`, string-or-None becomes `Option String`.
* Python dicts of fixed, known shape (the normalized profiles, the match
  result) are structures; dicts of open shape (JSON, rubric options) are
  association lists in insertion order.
* Python `round(x, n)` is modelled as round-half-up at `n` decimal places;
  CPython rounds the underlying binary float half-to-even, but no value that
  any proof or counterexample below rounds sits on an exact decimal half, so
  the two modes agree on everything stated here.
* `str.lower`/`str.strip` are modelled by the ASCII `py_lower`/`py_strip`
  below; every string the engine normalizes and compares is ASCII. -/

/-- Python `round(x, 4)` (see the convention on rounding above). -/
def round4 (q : ℚ) : ℚ := ((⌊q * 10000 + 1/2⌋ : ℤ) : ℚ) / 10000

/-- Python `round(x, 2)` (see the convention on rounding above). -/
def round2 (q : ℚ) : ℚ := ((⌊q * 100 + 1/2⌋ : ℤ) : ℚ) / 100

/-- Python `int(x)` on a float: truncation toward zero. -/
def py_int (q : ℚ) : ℤ := if 0 ≤ q then ⌊q⌋ else ⌈q⌉

/-- `to_int` on an already-numeric optional value (`to_float` is the
identity on a float that is not NaN, which a normalized profile never
holds). -/
def to_int_opt (o : Option ℚ) : Option ℤ := o.map py_int

/-- Python `x or d` for an optional number `x` (`None` and `0` are falsy). -/
def py_or_q (o : Option ℚ) (d : ℚ) : Option ℚ :=
  match o with
  | none => some d
  | some v => if v = 0 then some d else some v

/-- Is `c` one of Python's `\s` whitespace characters (ASCII range)? -/
def py_space (c : Char) : Bool :=
  c = ' ' ∨ c = '\t' ∨ c = '\n' ∨ c = '\r' ∨ c = '\x0b' ∨ c = '\x0c'

/-- Python `str.strip()` (ASCII whitespace; kept structurally recursive on
the character list so that the kernel can evaluate it). -/
def py_strip (s : String) : String :=
  String.mk (((s.toList.dropWhile py_space).reverse.dropWhile py_space).reverse)

def py_lower_char (c : Char) : Char :=
  if 'A' ≤ c ∧ c ≤ 'Z' then Char.ofNat (c.toNat + 32) else c

/-- Python `str.lower()` (ASCII; every string the engine compares after
lowering is ASCII). -/
def py_lower (s : String) : String := String.mk (s.toList.map py_lower_char)

/-- `norm_text` of `thesis_fit_pipeline_v2.py` on a string-or-None value:
`str(x).strip().lower()`, with `None` mapped to `""` first. -/
def norm_text (o : Option String) : String := py_lower (py_strip (o.getD ""))

/-- `clean_text` on a string-or-None value: `str(x).strip()`. -/
def clean_text (o : Option String) : String := py_strip (o.getD "")

/-- Python truthiness of a string-or-None value: `None` and `""` are falsy. -/
def truthy_str (o : Option String) : Prop := o.getD "" ≠ ""

instance (o : Option String) : Decidable (truthy_str o) := by
  unfold truthy_str; infer_instance

/-- `is_missing` on a string-or-None value: `None` or whitespace-only. -/
def is_missing_str (o : Option String) : Prop := py_strip (o.getD "") = ""

instance (o : Option String) : Decidable (is_missing_str o) := by
  unfold is_missing_str; infer_instance

/-- `list_norm_set` on a list of strings: the normalized forms of the
non-blank entries.  The Python function builds a set; only membership and
(after `List.dedup`) cardinality of the result are ever used, for which a
list is a faithful model. -/
def list_norm_set (l : List String) : List String :=
  (l.filter (fun x => py_strip x ≠ "")).map (fun x => py_lower (py_strip x))

/-- `overlap`: the two normalized sets intersect. -/
def overlap (a b : List String) : Prop :=
  ∃ x ∈ list_norm_set a, x ∈ list_norm_set b

instance (a b : List String) : Decidable (overlap a b) := by
  unfold overlap; infer_instance

/-- `count_overlap`: the size of the intersection of the two normalized
sets. -/
def count_overlap (a b : List String) : ℕ :=
  (((list_norm_set a).dedup).filter (fun x => x ∈ list_norm_set b)).length

/-- `range_overlap` on four float-or-None bounds. -/
def range_overlap (a_min a_max b_min b_max : Option ℚ) : Prop :=
  match a_min, a_max, b_min, b_max with
  | some am, some ax, some bm, some bx => max am bm ≤ min ax bx
  | _, _, _, _ => False

instance (a b c d : Option ℚ) : Decidable (range_overlap a b c d) := by
  unfold range_overlap; split <;> infer_instance

/-- `abs_distance_to_range`. -/
def abs_distance_to_range (value lo hi : Option ℚ) : Option ℚ :=
  match value, lo, hi with
  | some v, some l, some h =>
      if l ≤ v ∧ v ≤ h then some 0
      else if v < l then some (l - v) else some (v - h)
  | _, _, _ => none

/-- The numeric branch of `parse_percent`: a value in [0, 1] is already a
fraction, a value in (1, 100] is a percentage, anything else is missing. -/
def parse_percent_num (x : ℚ) : Option ℚ :=
  if 0 ≤ x ∧ x ≤ 1 then some x
  else if 1 < x ∧ x ≤ 100 then some (x / 100) else none

/-- `parse_percent` applied to a float-or-None profile field. -/
def parse_percent_opt (o : Option ℚ) : Option ℚ := o.bind parse_percent_num

/-- Collapse every run of whitespace to one space (the effect of
`re.sub(r"\s+", " ", s)`); `prevSpace` records whether the previous
character belonged to a whitespace run. -/
def collapse_ws_go (prevSpace : Bool) : List Char → List Char
  | [] => []
  | c :: rest =>
      if py_space c then
        if prevSpace then collapse_ws_go true rest
        else ' ' :: collapse_ws_go true rest
      else c :: collapse_ws_go false rest

/-- `normalize_condition_key`: trim, then collapse internal whitespace. -/
def normalize_condition_key (s : String) : String :=
  String.mk (collapse_ws_go false (py_strip s).toList)

/-- Does the character list `hay` start with `needle`? -/
def leading_match : List Char → List Char → Bool
  | [], _ => true
  | _ :: _, [] => false
  | a :: as_, b :: bs => a == b && leading_match as_ bs

/-- Python `needle in hay` on strings, as character lists. -/
def has_sub : List Char → List Char → Bool
  | hay, needle =>
      leading_match needle hay ||
        match hay with
        | [] => false
        | _ :: rest => has_sub rest needle

/-- `unique_norm_list`: keep the first occurrence (trimmed) of every
normalized form. -/
def unique_norm_list_go (seen : List String) : List String → List String
  | [] => []
  | v :: rest =>
      let t := py_strip v
      if t = "" then unique_norm_list_go seen rest
      else
        let n := py_lower t
        if n ∈ seen then unique_norm_list_go seen rest
        else t :: unique_norm_list_go (n :: seen) rest

/-- `unique_norm_list` of `thesis_fit_pipeline_v2.py`. -/
def unique_norm_list (l : List String) : List String := unique_norm_list_go [] l

/-- `to_list` applied to a string-or-None scalar (the only shape the engine
feeds it besides lists): `None`/blank give `[]`, a string with `,` or `;`
is split into trimmed non-blank parts, any other string is a singleton of
its trimmed form. -/
def split_parts (sep : Char → Bool) (cs : List Char) : List (List Char) :=
  cs.foldr
    (fun c acc =>
      if sep c then [] :: acc
      else match acc with
        | [] => [[c]]
        | p :: ps => (c :: p) :: ps)
    [[]]

def to_list_str (o : Option String) : List String :=
  match o with
  | none => []
  | some raw =>
      let s := py_strip raw
      if s = "" then []
      else if s.toList.any (fun c => c = ',' ∨ c = ';') then
        ((split_parts (fun c => c = ',' ∨ c = ';') s.toList).map
            (fun p => py_strip (String.mk p))).filter (fun p => p ≠ "")
      else [s]

/-- `STAGE_MAP`, in Python dict insertion order (the order matters for the
substring scan in `normalize_stage`). -/
def STAGE_MAP : List (String × String) :=
  [("preseed", "pre_seed"), ("pre-seed", "pre_seed"), ("pre seed", "pre_seed"),
   ("seed", "seed"),
   ("series a", "series_a"), ("series-a", "series_a"), ("series_a", "series_a"),
   ("series b", "series_b"), ("series-b", "series_b"), ("series_b", "series_b"),
   ("series c", "series_c_plus"), ("series d", "series_c_plus"),
   ("growth", "series_c_plus")]

/-- `STAGE_ORDER`. -/
def STAGE_ORDER : List (String × ℤ) :=
  [("pre_seed", 0), ("seed", 1), ("series_a", 2), ("series_b", 3),
   ("series_c_plus", 4)]

/-- `normalize_stage`: normalize the text, look it up exactly in
`STAGE_MAP`, then fall back to the first map key occurring as a substring. -/
def normalize_stage (v : Option String) : Option String :=
  let s := norm_text v
  if s = "" then none
  else match STAGE_MAP.lookup s with
    | some m => some m
    | none => (STAGE_MAP.find? (fun kv => has_sub s.toList kv.1.toList)).map (·.2)

/-- One step of `adjacent_stage`'s loop: investor stage entry `st` sits at
distance one from stage index `sIdx`. -/
def adjacent_one (sIdx : ℤ) (st : String) : Bool :=
  match STAGE_ORDER.lookup ((normalize_stage (some st)).getD st) with
  | none => false
  | some k => (k - sIdx).natAbs = 1

/-- `adjacent_stage`: the raw startup stage must be an exact `STAGE_ORDER`
key; investor entries are normalized (falling back to the raw entry). -/
def adjacent_stage (s_stage : Option String) (lst : List String) : Bool :=
  match s_stage with
  | none => false
  | some st =>
      match STAGE_ORDER.lookup st with
      | none => false
      | some sIdx => lst.any (adjacent_one sIdx)

/-- `strict_role_conflict`. -/
def strict_role_conflict (needs_lead only_followers : Option Bool)
    (investor_role : String) : Bool :=
  let role := py_lower (py_strip investor_role)
  (needs_lead == some true && role == "follow") ||
    (only_followers == some true && role == "lead")

/-- One argument's contribution to `artifact_count_present` for a
bool-or-None value (`None` is skipped, `False` counts 0). -/
def present_bool (o : Option Bool) : ℕ :=
  match o with
  | none => 0
  | some b => if b then 1 else 0

/-- One argument's contribution to `artifact_count_present` for a
string-or-None value (counted when non-blank). -/
def present_str (o : Option String) : ℕ :=
  match o with
  | none => 0
  | some s => if py_strip s ≠ "" then 1 else 0

/-! ## The normalized profiles (section 3 of the spec)

These are the dictionaries `fill_startup_defaults` / `fill_investor_defaults`
guarantee: every key present, leaves typed float/int/bool/string-or-None or
string list.  Field names follow the source. -/

structure BusinessModelInfo where
  primary : Option String
  is_b2b : Option Bool
  is_b2c : Option Bool
deriving DecidableEq, Repr

structure RaiseInfo where
  target_raise_usd : Option ℚ
  min_ticket_usd : Option ℚ
  max_ticket_usd : Option ℚ
  instrument_normalized : Option String
deriving DecidableEq, Repr

structure DealPreferences where
  needs_lead : Option Bool
  only_followers : Option Bool
  timeline_to_close_days : Option ℚ
deriving DecidableEq, Repr

structure TractionInfo where
  primary_signal : Option String
  arr_usd : Option ℚ
  revenue_ttm_usd : Option ℚ
  paying_customers_count : Option ℚ
  mom_growth_pct_3m_avg : Option ℚ
  yoy_growth_pct : Option ℚ
  evidence_links_count : Option ℚ
deriving DecidableEq, Repr

structure MilestonesInfo where
  quantified_count : Option ℚ
  stage_linked : Option Bool
deriving DecidableEq, Repr

structure TeamInfo where
  core_roles_covered_pct : Option ℚ
  domain_years_avg : Option ℚ
  prior_exit_count : Option ℚ
deriving DecidableEq, Repr

structure SignalsInfo where
  responsiveness_days : Option ℚ
  reference_count : Option ℚ
  negative_reference_flag : Option Bool
deriving DecidableEq, Repr

structure RiskInfo where
  regulatory_domain : Option String
  regulatory_risk_level : Option ℚ
  mitigation_plan_present : Option Bool
  time_to_liquidity_years : Option ℚ
  capital_intensity_level : Option ℚ
deriving DecidableEq, Repr

structure MoatInfo where
  score : Option ℚ
  types : List String
deriving DecidableEq, Repr

structure ArtifactsInfo where
  pitch_deck_uploaded : Option Bool
  pitch_deck_completeness_score : Option ℚ
  data_room_url : Option String
  cap_table_uploaded : Option Bool
  financial_model_uploaded : Option Bool
  customer_metrics_uploaded : Option Bool
deriving DecidableEq, Repr

/-- The normalized startup profile (the `"startup"` sub-dict). -/
structure Startup where
  stage_normalized : Option String
  round_normalized : Option String
  hq_country : Option String
  hq_state : Option String
  hq_city : Option String
  target_geographies : List String
  operating_geographies : List String
  sectors_normalized : List String
  subsectors_normalized : List String
  business_model : BusinessModelInfo
  raiseTerms : RaiseInfo
  deal_preferences : DealPreferences
  traction : TractionInfo
  milestones : MilestonesInfo
  team : TeamInfo
  signals : SignalsInfo
  risk : RiskInfo
  moat : MoatInfo
  artifacts : ArtifactsInfo
deriving DecidableEq, Repr

/-- The normalized investor profile (the `"investor"` sub-dict). -/
structure Investor where
  name : Option String
  active_status : Option String
  stage_focus_normalized : List String
  stage_exclude_normalized : List String
  sector_focus_normalized : List String
  sector_exclude_normalized : List String
  business_models_include : List String
  business_models_exclude : List String
  prefers_b2b : Option Bool
  prefers_b2c : Option Bool
  geo_focus_normalized : List String
  geo_exclude_normalized : List String
  geo_hard_constraint : Option Bool
  remote_ok : Option Bool
  check_min_usd : Option ℚ
  check_typical_usd : Option ℚ
  check_max_usd : Option ℚ
  lead_or_follow : Option String
  lead_follow_strict : Option Bool
  instrument_include_normalized : List String
  instrument_exclude_normalized : List String
  regulatory_exclude : List String
  regulatory_tolerance_level : Option ℚ
  defensibility_preference_min_score : Option ℚ
  time_horizon_min_years : Option ℚ
  time_horizon_max_years : Option ℚ
  capital_intensity_tolerance_level : Option ℚ
  requires_pitch_deck : Option Bool
  requires_data_room : Option Bool
  decision_speed_days : Option ℚ
  source_urls : List String
deriving DecidableEq, Repr

/-- `to_geo_union`: target plus operating geographies plus the HQ country.
The HQ country passes through Python's `to_list`, i.e. a comma/semicolon
string would be split. -/
def to_geo_union (s : Startup) : List String :=
  unique_norm_list
    (s.target_geographies ++ s.operating_geographies ++ to_list_str s.hq_country)

/-! ## Option-valued comparisons

Python `x is not None and x >= c` and friends, on optional numbers. -/

def oge (o : Option ℚ) (c : ℚ) : Bool :=
  match o with | none => false | some v => decide (c ≤ v)

def ole (o : Option ℚ) (c : ℚ) : Bool :=
  match o with | none => false | some v => decide (v ≤ c)

def olt (o : Option ℚ) (c : ℚ) : Bool :=
  match o with | none => false | some v => decide (v < c)

def ogt (o : Option ℚ) (c : ℚ) : Bool :=
  match o with | none => false | some v => decide (c < v)

def zge (o : Option ℤ) (c : ℤ) : Bool :=
  match o with | none => false | some v => decide (c ≤ v)

def zle (o : Option ℤ) (c : ℤ) : Bool :=
  match o with | none => false | some v => decide (v ≤ c)

/-- `a is not None and b is not None and a <= b` on optional integers. -/
def zz_le (a b : Option ℤ) : Bool :=
  match a, b with | some x, some y => decide (x ≤ y) | _, _ => false

/-- `a is not None and b is not None and a > b` on optional integers. -/
def zz_gt (a b : Option ℤ) : Bool :=
  match a, b with | some x, some y => decide (y < x) | _, _ => false

/-! ## Rule results and the hard gates -/

/-- `RuleResult` dataclass. -/
structure RuleResult where
  key : String
  points : ℚ
  max_points : ℚ
  matched_condition : String
  reason : String
deriving DecidableEq, Repr

/-- The `rr` constructor helper. -/
def rr (key : String) (pts mx : ℚ) (cond reason : String) : RuleResult :=
  ⟨key, pts, mx, cond, reason⟩

/-- The ordered failure-reason list `check_hard_gates` accumulates: the
eight gates in declaration order. -/
def gate_fails (s : Startup) (i : Investor) : List String :=
    (if norm_text i.active_status ≠ "active"
      then ["Investor is not active."] else []) ++
    (match i.check_max_usd, s.raiseTerms.min_ticket_usd with
      | some cm, some mt =>
          if cm < mt
          then ["Investor max check is below startup minimum acceptable check."]
          else []
      | _, _ => []) ++
    (if overlap (to_geo_union s) i.geo_exclude_normalized
      then ["Startup falls in investor explicit geography exclusion."] else []) ++
    (if overlap s.sectors_normalized i.sector_exclude_normalized
      then ["Startup sector explicitly excluded by investor."] else []) ++
    (if norm_text s.business_model.primary ≠ "" ∧
        norm_text s.business_model.primary ∈ list_norm_set i.business_models_exclude
      then ["Startup business model explicitly excluded by investor."] else []) ++
    (if norm_text s.raiseTerms.instrument_normalized ≠ "" ∧
        norm_text s.raiseTerms.instrument_normalized ∈
          list_norm_set i.instrument_exclude_normalized
      then ["Startup instrument explicitly excluded by investor."] else []) ++
    (if norm_text s.risk.regulatory_domain ≠ "" ∧
        norm_text s.risk.regulatory_domain ∈ list_norm_set i.regulatory_exclude
      then ["Regulatory domain explicitly excluded by investor."] else []) ++
    (if i.geo_hard_constraint = some true ∧
        ¬ overlap (to_geo_union s) i.geo_focus_normalized
      then ["Investor has hard geography constraint and startup is outside allowed geography."]
      else [])

/-- `check_hard_gates`: `(eligible, ordered failure reasons)`; eligible
means no gate failed. -/
def check_hard_gates (s : Startup) (i : Investor) : Bool × List String :=
  ((gate_fails s i).isEmpty, gate_fails s i)

/-! ## Category A: deal compatibility (`score_deal_compatibility`) -/

/-- Sub-rule A1. -/
def a1_stage_alignment (s : Startup) (i : Investor) : RuleResult :=
  let s_stage := s.stage_normalized
  let s_round := s.round_normalized
  let i_focus := i.stage_focus_normalized
  let i_excl := i.stage_exclude_normalized
  if truthy_str s_stage ∧ norm_text s_stage ∈ list_norm_set i_focus then
    rr "A1_stage_alignment" 30 30
      "startup.stage_normalized IN investor.stage_focus_normalized"
      "Stage directly in focus."
  else if truthy_str s_round ∧ norm_text s_round ∈ list_norm_set i_focus then
    rr "A1_stage_alignment" 26 30
      "startup.round_normalized IN investor.stage_focus_normalized"
      "Round aligns with stage focus."
  else if adjacent_stage s_stage i_focus then
    rr "A1_stage_alignment" 20 30
      "adjacent_stage(startup.stage_normalized, investor.stage_focus_normalized)"
      "Adjacent stage to focus."
  else if truthy_str s_stage ∧ norm_text s_stage ∈ list_norm_set i_excl then
    rr "A1_stage_alignment" 0 30
      "startup.stage_normalized IN investor.stage_exclude_normalized"
      "Stage is explicitly excluded."
  else if is_missing_str s_stage ∨ i_focus.length = 0 then
    rr "A1_stage_alignment" 6 30
      "missing(startup.stage_normalized) OR empty(investor.stage_focus_normalized)"
      "Missing stage or empty investor stage focus."
  else
    rr "A1_stage_alignment" 10 30 "default_non_focus_stage"
      "Stage not focused and not excluded."

/-- Sub-rule A2. -/
def a2_check_size (s : Startup) (i : Investor) : RuleResult :=
  let s_min := s.raiseTerms.min_ticket_usd
  let s_max := s.raiseTerms.max_ticket_usd
  let s_target := s.raiseTerms.target_raise_usd
  let i_min := i.check_min_usd
  let i_typ := i.check_typical_usd
  let i_max := i.check_max_usd
  if range_overlap s_min s_max i_min i_max then
    rr "A2_check_size_compatibility" 30 30
      "range_overlap([startup.raise.min_ticket_usd, startup.raise.max_ticket_usd], [investor.check_min_usd, investor.check_max_usd])"
      "Check ranges overlap."
  else if (match i_typ, s_min, s_max with
      | some t, some lo, some hi => decide (lo ≤ t ∧ t ≤ hi)
      | _, _, _ => false) then
    rr "A2_check_size_compatibility" 26 30
      "investor.check_typical_usd BETWEEN startup.raise.min_ticket_usd AND startup.raise.max_ticket_usd"
      "Typical check fits startup acceptable ticket."
  else if (match i_typ, s_target with
      | some t, some tr => decide (1/100 * tr ≤ t)
      | _, _ => false) then
    rr "A2_check_size_compatibility" 22 30
      "investor.check_typical_usd >= 0.01 * startup.raise.target_raise_usd"
      "Typical check is meaningful relative to round."
  else if (match i_typ, s_target with
      | some t, some tr => decide (5/1000 * tr ≤ t)
      | _, _ => false) then
    rr "A2_check_size_compatibility" 16 30
      "investor.check_typical_usd >= 0.005 * startup.raise.target_raise_usd"
      "Typical check is small but usable."
  else if (match i_max, s_min with
      | some mx, some mn => decide (mx < mn)
      | _, _ => false) then
    rr "A2_check_size_compatibility" 0 30
      "investor.check_max_usd < startup.raise.min_ticket_usd"
      "Investor cannot meet minimum ticket."
  else if s_target = none ∨ i_max = none then
    rr "A2_check_size_compatibility" 6 30
      "missing(startup.raise.target_raise_usd) OR missing(investor.check_max_usd)"
      "Missing raise target or investor max check."
  else
    rr "A2_check_size_compatibility" 8 30 "default_low_coverage"
      "Low check coverage."

/-- Sub-rule A3. -/
def a3_geography_fit (s : Startup) (i : Investor) : RuleResult :=
  let tg := s.target_geographies
  let og := s.operating_geographies
  let hq := s.hq_country
  let gf := i.geo_focus_normalized
  let geo_union := to_geo_union s
  if overlap tg gf then
    rr "A3_geography_jurisdiction_fit" 25 25
      "overlap(startup.target_geographies, investor.geo_focus_normalized)"
      "Target geography overlaps investor focus."
  else if overlap og gf then
    rr "A3_geography_jurisdiction_fit" 21 25
      "overlap(startup.operating_geographies, investor.geo_focus_normalized)"
      "Operating geography overlaps investor focus."
  else if truthy_str hq ∧ norm_text hq ∈ list_norm_set gf then
    rr "A3_geography_jurisdiction_fit" 18 25
      "startup.hq_country IN investor.geo_focus_normalized"
      "HQ country in investor geo focus."
  else if i.remote_ok = some true then
    rr "A3_geography_jurisdiction_fit" 16 25 "investor.remote_ok == true"
      "Investor open to remote/cross-geo deals."
  else if i.geo_hard_constraint = some true ∧ ¬ overlap geo_union gf then
    rr "A3_geography_jurisdiction_fit" 0 25
      "investor.geo_hard_constraint == true AND NOT overlap(startup.target_geographies OR startup.operating_geographies OR startup.hq_country, investor.geo_focus_normalized)"
      "Hard geo constraint not met."
  else if is_missing_str hq ∨ gf.length = 0 then
    rr "A3_geography_jurisdiction_fit" 5 25
      "missing(startup.hq_country) OR empty(investor.geo_focus_normalized)"
      "Missing HQ country or no geo focus."
  else
    rr "A3_geography_jurisdiction_fit" 9 25 "default_outside_preference"
      "Outside primary geo preference."

/-- Sub-rule A4. -/
def a4_leadership_fit (s : Startup) (i : Investor) : RuleResult :=
  let needs_lead := s.deal_preferences.needs_lead
  let only_followers := s.deal_preferences.only_followers
  let role := norm_text i.lead_or_follow
  if needs_lead = some true ∧ (role = "lead" ∨ role = "both") then
    rr "A4_deal_leadership_preference_fit" 20 20
      "startup.deal_preferences.needs_lead == true AND investor.lead_or_follow IN [\x27lead\x27,\x27both\x27]"
      "Lead need is satisfied."
  else if only_followers = some true ∧ (role = "follow" ∨ role = "both") then
    rr "A4_deal_leadership_preference_fit" 18 20
      "startup.deal_preferences.only_followers == true AND investor.lead_or_follow IN [\x27follow\x27,\x27both\x27]"
      "Follower preference is satisfied."
  else if role = "both" then
    rr "A4_deal_leadership_preference_fit" 16 20
      "investor.lead_or_follow == \x27both\x27" "Investor can lead or follow."
  else if i.lead_follow_strict = some true ∧
      strict_role_conflict needs_lead only_followers role then
    rr "A4_deal_leadership_preference_fit" 0 20
      "investor.lead_follow_strict == true AND strict_role_conflict(startup.deal_preferences, investor.lead_or_follow)"
      "Strict lead/follow conflict."
  else if needs_lead = none ∨ py_strip role = "" then
    rr "A4_deal_leadership_preference_fit" 5 20
      "missing(startup.deal_preferences.needs_lead) OR missing(investor.lead_or_follow)"
      "Missing lead/follow inputs."
  else
    rr "A4_deal_leadership_preference_fit" 9 20 "default_role_friction"
      "Some role friction."

/-- Sub-rule A5. -/
def a5_instrument_fit (s : Startup) (i : Investor) : RuleResult :=
  let instr := norm_text s.raiseTerms.instrument_normalized
  let i_inc := i.instrument_include_normalized
  let i_exc := i.instrument_exclude_normalized
  if instr ≠ "" ∧ instr ∈ list_norm_set i_inc then
    rr "A5_investment_instrument_fit" 20 20
      "startup.raise.instrument_normalized IN investor.instrument_include_normalized"
      "Instrument in included list."
  else if i_inc.length = 0 then
    rr "A5_investment_instrument_fit" 14 20
      "empty(investor.instrument_include_normalized)" "No include constraints set."
  else if instr ≠ "" ∧ instr ∈ list_norm_set i_exc then
    rr "A5_investment_instrument_fit" 0 20
      "startup.raise.instrument_normalized IN investor.instrument_exclude_normalized"
      "Instrument explicitly excluded."
  else if py_strip instr = "" ∨ i_inc.length = 0 then
    rr "A5_investment_instrument_fit" 5 20
      "missing(startup.raise.instrument_normalized) OR empty(investor.instrument_include_normalized)"
      "Missing instrument info."
  else
    rr "A5_investment_instrument_fit" 8 20 "default_unlisted_instrument"
      "Instrument not listed."

/-- `score_deal_compatibility`: the five A sub-rules in insertion order. -/
def score_deal_compatibility (s : Startup) (i : Investor) : List RuleResult :=
  [a1_stage_alignment s i, a2_check_size s i, a3_geography_fit s i,
   a4_leadership_fit s i, a5_instrument_fit s i]

/-! ## Category B: sector and business-model fit -/

/-- Sub-rule B1. -/
def b1_sector_alignment (s : Startup) (i : Investor) : RuleResult :=
  let s_sec := s.sectors_normalized
  let s_sub := s.subsectors_normalized
  let i_sec := i.sector_focus_normalized
  let i_exc := i.sector_exclude_normalized
  let c_main := count_overlap s_sec i_sec
  let c_sub := count_overlap s_sub i_sec
  if 2 ≤ c_main then
    rr "B1_sector_focus_alignment" 30 30
      "count_overlap(startup.sectors_normalized, investor.sector_focus_normalized) >= 2"
      "Strong multi-sector overlap."
  else if c_main = 1 then
    rr "B1_sector_focus_alignment" 24 30
      "count_overlap(startup.sectors_normalized, investor.sector_focus_normalized) == 1"
      "Single sector overlap."
  else if 1 ≤ c_sub then
    rr "B1_sector_focus_alignment" 18 30
      "count_overlap(startup.subsectors_normalized, investor.sector_focus_normalized) >= 1"
      "Subsector overlap."
  else if overlap s_sec i_exc then
    rr "B1_sector_focus_alignment" 0 30
      "overlap(startup.sectors_normalized, investor.sector_exclude_normalized)"
      "Sector explicitly excluded."
  else if s_sec.length = 0 ∨ i_sec.length = 0 then
    rr "B1_sector_focus_alignment" 6 30
      "missing(startup.sectors_normalized) OR empty(investor.sector_focus_normalized)"
      "Missing sector info."
  else
    rr "B1_sector_focus_alignment" 10 30 "default_no_overlap"
      "No sector overlap."

/-- Sub-rule B2. -/
def b2_business_model_fit (s : Startup) (i : Investor) : RuleResult :=
  let primary := norm_text s.business_model.primary
  let is_b2b := s.business_model.is_b2b
  let is_b2c := s.business_model.is_b2c
  let bmi := i.business_models_include
  let bme := i.business_models_exclude
  let pref_b2b := i.prefers_b2b
  let pref_b2c := i.prefers_b2c
  if primary ≠ "" ∧ primary ∈ list_norm_set bmi then
    rr "B2_business_model_fit" 20 20
      "startup.business_model.primary IN investor.business_models_include"
      "Primary model explicitly included."
  else if is_b2b = some true ∧ pref_b2b = some true then
    rr "B2_business_model_fit" 17 20
      "startup.business_model.is_b2b == true AND investor.prefers_b2b == true"
      "B2B preference match."
  else if is_b2c = some true ∧ pref_b2c = some true then
    rr "B2_business_model_fit" 17 20
      "startup.business_model.is_b2c == true AND investor.prefers_b2c == true"
      "B2C preference match."
  else if primary ≠ "" ∧ primary ∈ list_norm_set bme then
    rr "B2_business_model_fit" 0 20
      "startup.business_model.primary IN investor.business_models_exclude"
      "Primary model excluded."
  else if py_strip primary = "" then
    rr "B2_business_model_fit" 5 20
      "missing(startup.business_model.primary)" "Missing business model."
  else
    rr "B2_business_model_fit" 8 20 "default_model_misalignment"
      "Model does not align well."

/-- `score_sector_business_model_fit`. -/
def score_sector_business_model_fit (s : Startup) (i : Investor) :
    List RuleResult :=
  [b1_sector_alignment s i, b2_business_model_fit s i]

/-! ## Category C: traction vs thesis bar -/

/-- Sub-rule C1. -/
def c1_traction_evidence (s : Startup) (i : Investor) : RuleResult :=
  let stage := norm_text s.stage_normalized
  let t := s.traction
  let arr := t.arr_usd
  let rev := t.revenue_ttm_usd
  let links : ℤ := (to_int_opt t.evidence_links_count).getD 0
  let primary := norm_text t.primary_signal
  if (stage = "seed" ∨ stage = "series_a" ∨ stage = "series_b") ∧
      (0 < arr.getD 0 ∨ 0 < rev.getD 0) ∧ 1 ≤ links then
    rr "C1_traction_evidence_type" 30 30
      "startup.stage_normalized IN [\x27seed\x27,\x27series_a\x27,\x27series_b\x27] AND (startup.traction.arr_usd > 0 OR startup.traction.revenue_ttm_usd > 0) AND startup.traction.evidence_links_count >= 1"
      "Revenue evidence aligned with stage."
  else if (primary = "paying_customers" ∨ primary = "revenue" ∨ primary = "arr") ∧
      1 ≤ links then
    rr "C1_traction_evidence_type" 26 30
      "startup.traction.primary_signal IN [\x27paying_customers\x27,\x27revenue\x27,\x27arr\x27] AND startup.traction.evidence_links_count >= 1"
      "Strong traction signal with evidence."
  else if (primary = "pilots" ∨ primary = "lois") ∧ 1 ≤ links then
    rr "C1_traction_evidence_type" 20 30
      "startup.traction.primary_signal IN [\x27pilots\x27,\x27lois\x27] AND startup.traction.evidence_links_count >= 1"
      "Early commercial signal with evidence."
  else if primary = "waitlist" ∨ primary = "engagement" then
    rr "C1_traction_evidence_type" 12 30
      "startup.traction.primary_signal IN [\x27waitlist\x27,\x27engagement\x27]"
      "Directional signal, weaker commercial proof."
  else if primary = "none" ∨ primary = "unknown" then
    rr "C1_traction_evidence_type" 0 30
      "startup.traction.primary_signal IN [\x27none\x27,\x27unknown\x27]"
      "No traction signal."
  else if py_strip primary = "" then
    rr "C1_traction_evidence_type" 6 30
      "missing(startup.traction.primary_signal)"
      "Missing traction primary signal."
  else
    rr "C1_traction_evidence_type" 10 30 "default_other_signal"
      "Other traction signal."

/-- Sub-rule C2. -/
def c2_traction_momentum (s : Startup) (i : Investor) : RuleResult :=
  let mom := s.traction.mom_growth_pct_3m_avg
  let yoy := s.traction.yoy_growth_pct
  if oge mom 10 ∨ oge yoy 50 then
    rr "C2_traction_momentum" 20 20
      "startup.traction.mom_growth_pct_3m_avg >= 10 OR startup.traction.yoy_growth_pct >= 50"
      "Strong growth momentum."
  else if oge mom 5 ∨ oge yoy 20 then
    rr "C2_traction_momentum" 16 20
      "startup.traction.mom_growth_pct_3m_avg >= 5 OR startup.traction.yoy_growth_pct >= 20"
      "Good growth momentum."
  else if oge mom 0 then
    rr "C2_traction_momentum" 10 20
      "startup.traction.mom_growth_pct_3m_avg >= 0"
      "Flat-to-positive momentum."
  else if olt mom 0 ∨ olt yoy 0 then
    rr "C2_traction_momentum" 0 20
      "startup.traction.mom_growth_pct_3m_avg < 0 OR startup.traction.yoy_growth_pct < 0"
      "Negative momentum."
  else if mom = none ∧ yoy = none then
    rr "C2_traction_momentum" 4 20
      "missing(startup.traction.mom_growth_pct_3m_avg) AND missing(startup.traction.yoy_growth_pct)"
      "Missing momentum metrics."
  else
    rr "C2_traction_momentum" 8 20 "default_momentum_mid"
      "Partial momentum evidence."

/-- Sub-rule C3. -/
def c3_milestones (s : Startup) (i : Investor) : RuleResult :=
  let q := to_int_opt s.milestones.quantified_count
  let linked := s.milestones.stage_linked
  if zge q 3 ∧ linked = some true then
    rr "C3_milestones_vs_next_stage" 25 25
      "startup.milestones.quantified_count >= 3 AND startup.milestones.stage_linked == true"
      "Strong quantified milestones linked to stage."
  else if zge q 2 then
    rr "C3_milestones_vs_next_stage" 18 25
      "startup.milestones.quantified_count >= 2"
      "Good quantified milestones."
  else if q = some 1 then
    rr "C3_milestones_vs_next_stage" 10 25
      "startup.milestones.quantified_count == 1"
      "Single quantified milestone."
  else if q = some 0 then
    rr "C3_milestones_vs_next_stage" 0 25
      "startup.milestones.quantified_count == 0"
      "No quantified milestones."
  else if q = none then
    rr "C3_milestones_vs_next_stage" 5 25
      "missing(startup.milestones.quantified_count)"
      "Missing milestones count."
  else
    rr "C3_milestones_vs_next_stage" 8 25 "default_milestone_mid"
      "Partial milestone info."

/-- `score_traction_vs_thesis`. -/
def score_traction_vs_thesis (s : Startup) (i : Investor) : List RuleResult :=
  [c1_traction_evidence s i, c2_traction_momentum s i, c3_milestones s i]

/-! ## Category D: founder and team fit -/

/-- Sub-rule D1. -/
def d1_team_completeness (s : Startup) (i : Investor) : RuleResult :=
  let coverage := parse_percent_opt s.team.core_roles_covered_pct
  if oge coverage (9/10) then
    rr "D1_team_completeness_vs_stage" 25 25
      "startup.team.core_roles_covered_pct >= 0.9" "Excellent role coverage."
  else if oge coverage (7/10) then
    rr "D1_team_completeness_vs_stage" 18 25
      "startup.team.core_roles_covered_pct >= 0.7" "Good role coverage."
  else if oge coverage (4/10) then
    rr "D1_team_completeness_vs_stage" 10 25
      "startup.team.core_roles_covered_pct >= 0.4" "Partial role coverage."
  else if olt coverage (4/10) then
    rr "D1_team_completeness_vs_stage" 0 25
      "startup.team.core_roles_covered_pct < 0.4" "Weak role coverage."
  else
    rr "D1_team_completeness_vs_stage" 5 25
      "missing(startup.team.core_roles_covered_pct)"
      "Missing role coverage metric."

/-- Sub-rule D2. -/
def d2_domain_execution (s : Startup) (i : Investor) : RuleResult :=
  let exits : ℤ := (to_int_opt s.team.prior_exit_count).getD 0
  let years := s.team.domain_years_avg
  if 1 ≤ exits ∨ oge years 8 then
    rr "D2_domain_execution_evidence" 30 30
      "startup.team.prior_exit_count >= 1 OR startup.team.domain_years_avg >= 8"
      "Strong founder execution proof."
  else if oge years 5 then
    rr "D2_domain_execution_evidence" 24 30
      "startup.team.domain_years_avg >= 5" "Strong domain depth."
  else if oge years 3 then
    rr "D2_domain_execution_evidence" 18 30
      "startup.team.domain_years_avg >= 3" "Moderate domain depth."
  else if oge years 1 then
    rr "D2_domain_execution_evidence" 10 30
      "startup.team.domain_years_avg >= 1" "Early domain experience."
  else if olt years 1 then
    rr "D2_domain_execution_evidence" 4 30
      "startup.team.domain_years_avg < 1" "Limited domain depth."
  else
    rr "D2_domain_execution_evidence" 6 30
      "missing(startup.team.domain_years_avg)" "Missing domain-years metric."

/-- Sub-rule D3. -/
def d3_coachability (s : Startup) (i : Investor) : RuleResult :=
  let neg := s.signals.negative_reference_flag
  let resp_days := to_int_opt s.signals.responsiveness_days
  let refs : ℤ := (to_int_opt s.signals.reference_count).getD 0
  if neg = some true then
    rr "D3_coachability_signals" 0 20
      "startup.signals.negative_reference_flag == true"
      "Negative references present."
  else if zle resp_days 3 ∧ 2 ≤ refs then
    rr "D3_coachability_signals" 20 20
      "startup.signals.responsiveness_days <= 3 AND startup.signals.reference_count >= 2"
      "Fast response with strong references."
  else if zle resp_days 7 ∧ 1 ≤ refs then
    rr "D3_coachability_signals" 15 20
      "startup.signals.responsiveness_days <= 7 AND startup.signals.reference_count >= 1"
      "Good responsiveness and references."
  else if zle resp_days 14 then
    rr "D3_coachability_signals" 9 20
      "startup.signals.responsiveness_days <= 14" "Moderate responsiveness."
  else
    rr "D3_coachability_signals" 4 20
      "missing(startup.signals.responsiveness_days)"
      "Missing coachability timing signals."

/-- `score_founder_team_fit`. -/
def score_founder_team_fit (s : Startup) (i : Investor) : List RuleResult :=
  [d1_team_completeness s i, d2_domain_execution s i, d3_coachability s i]

/-! ## Category E: risk and regulatory alignment -/

/-- Sub-rule E1. -/
def e1_regulatory_exposure (s : Startup) (i : Investor) : RuleResult :=
  let reg_domain := norm_text s.risk.regulatory_domain
  let reg_level := to_int_opt s.risk.regulatory_risk_level
  let reg_tol := to_int_opt i.regulatory_tolerance_level
  let mitigate := s.risk.mitigation_plan_present
  if reg_domain ≠ "" ∧ reg_domain ∈ list_norm_set i.regulatory_exclude then
    rr "E1_regulatory_exposure_vs_tolerance" 0 30
      "startup.risk.regulatory_domain IN investor.regulatory_exclude"
      "Regulatory domain excluded."
  else if zz_le reg_level reg_tol then
    rr "E1_regulatory_exposure_vs_tolerance" 30 30
      "startup.risk.regulatory_risk_level <= investor.regulatory_tolerance_level"
      "Regulatory risk within tolerance."
  else if (match reg_level, reg_tol with
      | some l, some t => decide (l = t + 1)
      | _, _ => false) && (mitigate == some true) then
    rr "E1_regulatory_exposure_vs_tolerance" 20 30
      "startup.risk.regulatory_risk_level == investor.regulatory_tolerance_level + 1 AND startup.risk.mitigation_plan_present == true"
      "Slightly above tolerance but mitigated."
  else if zz_gt reg_level reg_tol then
    rr "E1_regulatory_exposure_vs_tolerance" 8 30
      "startup.risk.regulatory_risk_level > investor.regulatory_tolerance_level"
      "Above tolerance."
  else
    rr "E1_regulatory_exposure_vs_tolerance" 5 30
      "missing(startup.risk.regulatory_risk_level) OR missing(investor.regulatory_tolerance_level)"
      "Missing regulatory risk inputs."

/-- Sub-rule E2. -/
def e2_defensibility (s : Startup) (i : Investor) : RuleResult :=
  let moat_score := parse_percent_opt s.moat.score
  let min_pref := (i.defensibility_preference_min_score).getD 0
  if oge moat_score (max (8/10) min_pref) then
    rr "E2_defensibility_vs_preference" 25 25
      "startup.moat.score >= max(0.8, investor.defensibility_preference_min_score)"
      "High defensibility."
  else if oge moat_score (max (6/10) min_pref) then
    rr "E2_defensibility_vs_preference" 18 25
      "startup.moat.score >= max(0.6, investor.defensibility_preference_min_score)"
      "Good defensibility."
  else if oge moat_score (4/10) then
    rr "E2_defensibility_vs_preference" 10 25
      "startup.moat.score >= 0.4" "Moderate defensibility."
  else if olt moat_score (4/10) then
    rr "E2_defensibility_vs_preference" 4 25
      "startup.moat.score < 0.4" "Low defensibility."
  else
    rr "E2_defensibility_vs_preference" 5 25
      "missing(startup.moat.score)" "Missing moat score."

/-- Sub-rule E3. -/
def e3_time_horizon (s : Startup) (i : Investor) : RuleResult :=
  let tli := s.risk.time_to_liquidity_years
  let hmin := i.time_horizon_min_years
  let hmax := i.time_horizon_max_years
  let s_cap := to_int_opt s.risk.capital_intensity_level
  let i_cap := to_int_opt i.capital_intensity_tolerance_level
  let dist := abs_distance_to_range tli hmin hmax
  if (match tli, hmin, hmax with
      | some t, some l, some h => decide (l ≤ t ∧ t ≤ h)
      | _, _, _ => false) && zz_le s_cap i_cap then
    rr "E3_time_horizon_risk_concentration" 20 20
      "startup.risk.time_to_liquidity_years BETWEEN investor.time_horizon_min_years AND investor.time_horizon_max_years AND startup.risk.capital_intensity_level <= investor.capital_intensity_tolerance_level"
      "Time horizon and capital intensity fit."
  else if ole dist 2 then
    rr "E3_time_horizon_risk_concentration" 14 20
      "abs_distance_to_range(startup.risk.time_to_liquidity_years, [investor.time_horizon_min_years, investor.time_horizon_max_years]) <= 2"
      "Near horizon range."
  else if zz_gt s_cap i_cap then
    rr "E3_time_horizon_risk_concentration" 6 20
      "startup.risk.capital_intensity_level > investor.capital_intensity_tolerance_level"
      "Capital intensity above tolerance."
  else if ogt dist 2 then
    rr "E3_time_horizon_risk_concentration" 6 20
      "abs_distance_to_range(startup.risk.time_to_liquidity_years, [investor.time_horizon_min_years, investor.time_horizon_max_years]) > 2"
      "Outside time horizon."
  else
    rr "E3_time_horizon_risk_concentration" 4 20
      "missing(startup.risk.time_to_liquidity_years) OR missing(investor.time_horizon_min_years)"
      "Missing time-horizon inputs."

/-- `score_risk_regulatory_alignment`. -/
def score_risk_regulatory_alignment (s : Startup) (i : Investor) :
    List RuleResult :=
  [e1_regulatory_exposure s i, e2_defensibility s i, e3_time_horizon s i]

/-! ## Category F: diligence and process fit -/

/-- Sub-rule F1. -/
def f1_pitch_deck (s : Startup) (i : Investor) : RuleResult :=
  let deck := s.artifacts.pitch_deck_uploaded
  let deck_score := s.artifacts.pitch_deck_completeness_score
  if deck = some true ∧ oge deck_score (8/10) then
    rr "F1_pitch_deck_availability" 20 20
      "startup.artifacts.pitch_deck_uploaded == true AND startup.artifacts.pitch_deck_completeness_score >= 0.8"
      "Deck is strong and ready."
  else if deck = some true ∧ oge deck_score (6/10) then
    rr "F1_pitch_deck_availability" 15 20
      "startup.artifacts.pitch_deck_uploaded == true AND startup.artifacts.pitch_deck_completeness_score >= 0.6"
      "Deck is usable."
  else if deck = some true then
    rr "F1_pitch_deck_availability" 9 20
      "startup.artifacts.pitch_deck_uploaded == true" "Deck exists."
  else if i.requires_pitch_deck = some true ∧ deck = some false then
    rr "F1_pitch_deck_availability" 0 20
      "investor.requires_pitch_deck == true AND startup.artifacts.pitch_deck_uploaded == false"
      "Deck required but missing."
  else
    rr "F1_pitch_deck_availability" 4 20
      "missing(startup.artifacts.pitch_deck_uploaded)"
      "Deck availability unknown."

/-- `artifact_count_present` as called in F2 (five specific artifacts). -/
def f2_artifact_count (a : ArtifactsInfo) : ℕ :=
  present_str a.data_room_url + present_bool a.cap_table_uploaded +
    present_bool a.financial_model_uploaded +
    present_bool a.customer_metrics_uploaded +
    present_bool a.pitch_deck_uploaded

/-- Sub-rule F2. -/
def f2_data_room (s : Startup) (i : Investor) : RuleResult :=
  let c := f2_artifact_count s.artifacts
  if c = 5 then
    rr "F2_data_room_artifacts" 35 35
      "artifact_count_present(startup.artifacts.data_room_url, startup.artifacts.cap_table_uploaded, startup.artifacts.financial_model_uploaded, startup.artifacts.customer_metrics_uploaded, startup.artifacts.pitch_deck_uploaded) == 5"
      "Complete diligence pack."
  else if c = 4 then
    rr "F2_data_room_artifacts" 28 35
      "artifact_count_present(startup.artifacts.data_room_url, startup.artifacts.cap_table_uploaded, startup.artifacts.financial_model_uploaded, startup.artifacts.customer_metrics_uploaded, startup.artifacts.pitch_deck_uploaded) == 4"
      "Near-complete diligence pack."
  else if c = 3 then
    rr "F2_data_room_artifacts" 20 35
      "artifact_count_present(startup.artifacts.data_room_url, startup.artifacts.cap_table_uploaded, startup.artifacts.financial_model_uploaded, startup.artifacts.customer_metrics_uploaded, startup.artifacts.pitch_deck_uploaded) == 3"
      "Moderate diligence pack."
  else if c = 1 ∨ c = 2 then
    rr "F2_data_room_artifacts" 10 35
      "artifact_count_present(startup.artifacts.data_room_url, startup.artifacts.cap_table_uploaded, startup.artifacts.financial_model_uploaded, startup.artifacts.customer_metrics_uploaded, startup.artifacts.pitch_deck_uploaded) IN [1,2]"
      "Limited artifacts."
  else if i.requires_data_room = some true ∧ c = 0 then
    rr "F2_data_room_artifacts" 0 35
      "investor.requires_data_room == true AND artifact_count_present(startup.artifacts.data_room_url, startup.artifacts.cap_table_uploaded, startup.artifacts.financial_model_uploaded, startup.artifacts.customer_metrics_uploaded, startup.artifacts.pitch_deck_uploaded) == 0"
      "Data room required but absent."
  else
    rr "F2_data_room_artifacts" 6 35
      "missing(startup.artifacts.data_room_url) AND missing(startup.artifacts.cap_table_uploaded)"
      "Missing core diligence artifacts."

/-- Sub-rule F3. -/
def f3_timeline (s : Startup) (i : Investor) : RuleResult :=
  let ds := to_int_opt i.decision_speed_days
  let tl := to_int_opt s.deal_preferences.timeline_to_close_days
  if (match ds, tl with
      | some d, some t => decide (d ≤ t)
      | _, _ => false) then
    rr "F3_timeline_compatibility" 20 20
      "investor.decision_speed_days <= startup.deal_preferences.timeline_to_close_days"
      "Decision speed fits close timeline."
  else if (match ds, tl with
      | some d, some t => decide (d ≤ t + 14)
      | _, _ => false) then
    rr "F3_timeline_compatibility" 14 20
      "investor.decision_speed_days <= startup.deal_preferences.timeline_to_close_days + 14"
      "Slight timeline stretch."
  else if (match ds, tl with
      | some d, some t => decide (d ≤ t + 45)
      | _, _ => false) then
    rr "F3_timeline_compatibility" 8 20
      "investor.decision_speed_days <= startup.deal_preferences.timeline_to_close_days + 45"
      "Moderate timeline friction."
  else if (match ds, tl with
      | some d, some t => decide (t + 45 < d)
      | _, _ => false) then
    rr "F3_timeline_compatibility" 0 20
      "investor.decision_speed_days > startup.deal_preferences.timeline_to_close_days + 45"
      "Major timeline mismatch."
  else
    rr "F3_timeline_compatibility" 4 20
      "missing(investor.decision_speed_days) OR missing(startup.deal_preferences.timeline_to_close_days)"
      "Missing timeline inputs."

/-- `score_diligence_process_fit`. -/
def score_diligence_process_fit (s : Startup) (i : Investor) :
    List RuleResult :=
  [f1_pitch_deck s i, f2_data_room s i, f3_timeline s i]

/-! ## Rubric (external, optional) and its index

A rubric category's dict mixes `maximum_point`/`weight` scalars with
sub-rule entries (list-valued keys whose first element is a dict holding
`maximum_points`, `evaluation_order`, `options`); the typed model keeps the
two kinds apart.  `build_rubric_index` flattens all sub-rules into one map,
later categories overwriting earlier duplicates exactly as repeated dict
assignment does. -/

structure SubruleRubric where
  maximum_points : Option ℚ
  evaluation_order : List String
  options : List (String × ℚ)
deriving DecidableEq, Repr

structure CategoryRubric where
  maximum_point : Option ℚ
  weight : Option ℚ
  subrules : List (String × SubruleRubric)
deriving DecidableEq, Repr

structure Rubric where
  categories : List (String × CategoryRubric)
deriving DecidableEq, Repr

/-- The per-sub-rule record `build_rubric_index` stores. -/
structure RubricSubruleCfg where
  category_key : String
  maximum_points : Option ℚ
  evaluation_order : List String
  options : List (String × ℚ)
deriving DecidableEq, Repr

structure RubricIndex where
  subrules : List (String × RubricSubruleCfg)
deriving DecidableEq, Repr

/-- Python dict assignment on an association list: replace in place when
the key exists, append otherwise. -/
def upsert {α : Type} (l : List (String × α)) (k : String) (v : α) :
    List (String × α) :=
  if (l.lookup k).isSome then
    l.map (fun kv => if kv.1 = k then (k, v) else kv)
  else l ++ [(k, v)]

/-- `build_rubric_index` (the `category_meta` and hard-gate parts of the
Python index are never read by `manual_match` and are not modelled). -/
def build_rubric_index (rubric : Option Rubric) : RubricIndex :=
  match rubric with
  | none => ⟨[]⟩
  | some rb =>
      ⟨rb.categories.foldl
        (fun acc ckv =>
          ckv.2.subrules.foldl
            (fun acc2 skv =>
              upsert acc2 skv.1
                ⟨ckv.1, skv.2.maximum_points,
                 skv.2.evaluation_order.map normalize_condition_key,
                 skv.2.options.map
                   (fun ov => (normalize_condition_key ov.1, ov.2))⟩)
            acc)
        []⟩

/-- `apply_rubric_points`: for each rule result, when the index has an
entry for its key, look the normalized matched condition up in that
entry's options for the points (engine value when absent) and take the
entry's declared maximum for `max_points` (engine value when the entry
declares none). -/
def apply_rubric_points (rule_results : List RuleResult)
    (rubric_index : RubricIndex) : List RuleResult :=
  rule_results.map (fun r =>
    match rubric_index.subrules.lookup r.key with
    | none => r
    | some sub =>
        { key := r.key,
          points :=
            (sub.options.lookup (normalize_condition_key r.matched_condition)).getD
              r.points,
          max_points :=
            match sub.maximum_points with
            | none => r.max_points
            | some m => m,
          matched_condition := r.matched_condition,
          reason := r.reason })

/-! ## Aggregation (`calc_category_summary`, `manual_match`) -/

structure SubcategorySummary where
  points : ℚ
  max_points : ℚ
  matched_condition : String
  reason : String
deriving DecidableEq, Repr

structure CategorySummary where
  raw_points : ℚ
  max_point : ℚ
  percent : ℚ
  weight : ℚ
  weighted_contribution : ℚ
  subcategories : List (String × SubcategorySummary)
deriving DecidableEq, Repr

/-- `calc_category_summary`. -/
def calc_category_summary (rule_results : List RuleResult)
    (max_point weight : ℚ) : CategorySummary :=
  let raw_points := (rule_results.map (·.points)).sum
  let percent := if 0 < max_point then raw_points / max_point else 0
  let weighted_contribution := percent * weight
  { raw_points := round4 raw_points,
    max_point := round4 max_point,
    percent := round4 (percent * 100),
    weight := round4 weight,
    weighted_contribution := round4 weighted_contribution,
    subcategories :=
      rule_results.map (fun v =>
        (v.key, ⟨round4 v.points, round4 v.max_points, v.matched_condition,
                 v.reason⟩)) }

/-- `manual_match`'s default per-category `(max_point, weight)`, overridden
by the rubric's category entry when its values are present. -/
def cat_meta_for (rubric : Option Rubric) (ck : String) (dmax dwt : ℚ) :
    ℚ × ℚ :=
  match rubric with
  | none => (dmax, dwt)
  | some rb =>
      match rb.categories.lookup ck with
      | none => (dmax, dwt)
      | some cfg => ((cfg.maximum_point).getD dmax, (cfg.weight).getD dwt)

/-- The fixed six-category breakdown dict of a match result. -/
structure CategoryBreakdown where
  deal_compatibility : CategorySummary
  sector_business_model_fit : CategorySummary
  traction_vs_thesis_bar : CategorySummary
  founder_team_fit : CategorySummary
  risk_regulatory_alignment : CategorySummary
  diligence_process_fit : CategorySummary
deriving DecidableEq, Repr

/-- The breakdown as the ordered key-value list Python iterates. -/
def CategoryBreakdown.toList (b : CategoryBreakdown) :
    List (String × CategorySummary) :=
  [("deal_compatibility", b.deal_compatibility),
   ("sector_business_model_fit", b.sector_business_model_fit),
   ("traction_vs_thesis_bar", b.traction_vs_thesis_bar),
   ("founder_team_fit", b.founder_team_fit),
   ("risk_regulatory_alignment", b.risk_regulatory_alignment),
   ("diligence_process_fit", b.diligence_process_fit)]

def sum_raw (b : CategoryBreakdown) : ℚ :=
  (b.toList.map (fun kv => kv.2.raw_points)).sum

def sum_max (b : CategoryBreakdown) : ℚ :=
  (b.toList.map (fun kv => kv.2.max_point)).sum

def sum_contrib (b : CategoryBreakdown) : ℚ :=
  (b.toList.map (fun kv => kv.2.weighted_contribution)).sum

/-- Every sub-rule summary of the breakdown, in iteration order. -/
def CategoryBreakdown.allSubs (b : CategoryBreakdown) :
    List (String × SubcategorySummary) :=
  (b.toList.map (fun kv => kv.2.subcategories)).flatten

/-- The wrapper object `build_startup_cmd` produces: the profile plus the
metadata `manual_match` copies into `startup_ref`. -/
structure StartupObj where
  startup : Startup
  source_files : List (String × String)
deriving DecidableEq, Repr

/-- The wrapper object for an investor profile. -/
structure InvestorObj where
  investor : Investor
  source_file : Option String
deriving DecidableEq, Repr

/-- The Match Result.  `generated_at_utc` is `now_utc_iso()` at call time;
the wall clock is modelled as the explicit argument `now` of
`manual_match`. -/
structure MatchResult where
  matching_version : String
  generated_at_utc : String
  startup_ref : List (String × String)
  investor_ref : Option String
  eligible : Bool
  gate_fail_reasons : List String
  raw_points_total : ℚ
  raw_points_max_total : ℚ
  fit_score_if_eligible_0_to_100 : ℚ
  fit_score_0_to_100 : ℚ
  category_breakdown : CategoryBreakdown
  notes : List String
deriving DecidableEq, Repr

/-- `manual_match`.  `now` stands for the ambient UTC clock reading
(`now_utc_iso()`); everything else is a pure function of the arguments. -/
def manual_match (now : String) (startup_obj : StartupObj)
    (investor_obj : InvestorObj) (rubric : Option Rubric) : MatchResult :=
  let startup := startup_obj.startup
  let investor := investor_obj.investor
  let rubric_index := build_rubric_index rubric
  let gates := check_hard_gates startup investor
  let eligible := gates.1
  let gate_fails := gates.2
  let m1 := cat_meta_for rubric "deal_compatibility" 125 35
  let m2 := cat_meta_for rubric "sector_business_model_fit" 50 20
  let m3 := cat_meta_for rubric "traction_vs_thesis_bar" 75 15
  let m4 := cat_meta_for rubric "founder_team_fit" 75 20
  let m5 := cat_meta_for rubric "risk_regulatory_alignment" 75 5
  let m6 := cat_meta_for rubric "diligence_process_fit" 75 5
  let c1 := apply_rubric_points (score_deal_compatibility startup investor) rubric_index
  let c2 := apply_rubric_points (score_sector_business_model_fit startup investor) rubric_index
  let c3 := apply_rubric_points (score_traction_vs_thesis startup investor) rubric_index
  let c4 := apply_rubric_points (score_founder_team_fit startup investor) rubric_index
  let c5 := apply_rubric_points (score_risk_regulatory_alignment startup investor) rubric_index
  let c6 := apply_rubric_points (score_diligence_process_fit startup investor) rubric_index
  let summaries : CategoryBreakdown :=
    ⟨calc_category_summary c1 m1.1 m1.2,
     calc_category_summary c2 m2.1 m2.2,
     calc_category_summary c3 m3.1 m3.2,
     calc_category_summary c4 m4.1 m4.2,
     calc_category_summary c5 m5.1 m5.2,
     calc_category_summary c6 m6.1 m6.2⟩
  let raw_total := sum_raw summaries
  let raw_max_total := sum_max summaries
  let fit_score_if_eligible := sum_contrib summaries
  let fit_score_final := if eligible then fit_score_if_eligible else 0
  { matching_version := "manual_deterministic_v2",
    generated_at_utc := now,
    startup_ref := startup_obj.source_files,
    investor_ref := investor_obj.source_file,
    eligible := eligible,
    gate_fail_reasons := gate_fails,
    raw_points_total := round4 raw_total,
    raw_points_max_total := round4 raw_max_total,
    fit_score_if_eligible_0_to_100 := round4 fit_score_if_eligible,
    fit_score_0_to_100 := round4 fit_score_final,
    category_breakdown := summaries,
    notes :=
      ["Startup and investor normalization are separate artifacts.",
       "Same startup_thesis_fit.json can be matched with multiple investor_thesis_fit.json files.",
       "First-match-in-order logic is preserved per subcategory.",
       "Points/weights are loaded from rubric when available."] }

/-! ## Task generation (`TASK_LIBRARY`, `generate_improvement_tasks`) -/

/-- Python `x or d` on a float that is always present: `0` is falsy. -/
def py_truthy_or (x d : ℚ) : ℚ := if x = 0 then d else x

def slug_ok (c : Char) : Bool :=
  ('a' ≤ c && c ≤ 'z') || ('0' ≤ c && c ≤ '9')

/-- Replace every maximal run of non-alphanumeric characters with one
underscore (the `re.sub(r"[^a-z0-9]+", "_", s)` step of `slugify`). -/
def slug_collapse (prevBad : Bool) : List Char → List Char
  | [] => []
  | c :: rest =>
      if slug_ok c then c :: slug_collapse false rest
      else if prevBad then slug_collapse true rest
      else '_' :: slug_collapse true rest

/-- `slugify`. -/
def slugify (s : String) : String :=
  let n := py_lower (py_strip s)
  let t := (((slug_collapse false n.toList).dropWhile (· = '_')).reverse.dropWhile
      (· = '_')).reverse
  if t.isEmpty then "task" else String.mk t

/-- The generated remediation task record (named `FitTask` here because
`Task` is taken by the Lean core library). -/
structure FitTask where
  task_id : String
  task_title : String
  task_description : String
  task_points : ℚ
  task_done : Bool
  task_value : ℚ
  task_type : String
  subcategory_key : Option String
  category_key : Option String
  field_hints : List String
deriving DecidableEq, Repr

/-- `TASK_LIBRARY`: `(title, description, field_hints)` per sub-rule key. -/
def TASK_LIBRARY : List (String × (String × String × List String)) :=
  [("A1_stage_alignment",
    ("Align stage narrative with investor mandate",
     "Reframe or validate current round/stage with hard evidence so it maps directly to the investor’s target stage buckets.",
     ["startup.stage_normalized", "startup.round_normalized", "startup.traction.primary_signal"])),
   ("A2_check_size_compatibility",
    ("Restructure check-size ask",
     "Adjust minimum/maximum acceptable ticket or syndicate strategy so the investor’s typical check can participate cleanly.",
     ["startup.raise.min_ticket_usd", "startup.raise.max_ticket_usd", "startup.raise.target_raise_usd"])),
   ("A3_geography_jurisdiction_fit",
    ("Improve geo fit for this investor",
     "Add operating footprint, GTM partners, or regulatory readiness in investor focus geographies.",
     ["startup.hq_country", "startup.operating_geographies", "startup.target_geographies"])),
   ("A4_deal_leadership_preference_fit",
    ("Clarify lead/follow expectations",
     "Make lead investor need explicit and align syndicate plan to the investor’s lead/follow behavior.",
     ["startup.deal_preferences.needs_lead", "startup.deal_preferences.only_followers"])),
   ("A5_investment_instrument_fit",
    ("Match funding instrument",
     "Offer a compatible instrument (SAFE, priced round, convertible) aligned with investor policy.",
     ["startup.raise.instrument_normalized"])),
   ("B1_sector_focus_alignment",
    ("Strengthen thesis-sector overlap",
     "Tighten category positioning and proof points to match the investor’s sector thesis terms.",
     ["startup.sectors_normalized", "startup.subsectors_normalized"])),
   ("B2_business_model_fit",
    ("Improve business model fit messaging",
     "Clarify B2B/B2C mix, pricing model, and ICP to match investor preference.",
     ["startup.business_model.primary", "startup.business_model.is_b2b", "startup.business_model.is_b2c"])),
   ("C1_traction_evidence_type",
    ("Upgrade traction evidence quality",
     "Add verifiable traction artifacts (ARR, revenue, pilots, customer proofs) with source links.",
     ["startup.traction.arr_usd", "startup.traction.revenue_ttm_usd", "startup.traction.evidence_links_count"])),
   ("C2_traction_momentum",
    ("Improve growth momentum",
     "Deliver measurable MoM/YoY improvements and highlight durable growth drivers.",
     ["startup.traction.mom_growth_pct_3m_avg", "startup.traction.yoy_growth_pct"])),
   ("C3_milestones_vs_next_stage",
    ("Define quantified next-stage milestones",
     "Publish 3+ measurable milestones explicitly tied to next financing readiness.",
     ["startup.milestones.quantified_count", "startup.milestones.stage_linked"])),
   ("D1_team_completeness_vs_stage",
    ("Close team gaps for current stage",
     "Fill missing core roles and make ownership/accountability explicit.",
     ["startup.team.core_roles_covered_pct"])),
   ("D2_domain_execution_evidence",
    ("Increase execution credibility",
     "Highlight domain depth, prior outcomes, and operator references tied to current market.",
     ["startup.team.domain_years_avg", "startup.team.prior_exit_count"])),
   ("D3_coachability_signals",
    ("Improve responsiveness and references",
     "Reduce response times and add trusted references to improve investor confidence.",
     ["startup.signals.responsiveness_days", "startup.signals.reference_count", "startup.signals.negative_reference_flag"])),
   ("E1_regulatory_exposure_vs_tolerance",
    ("Reduce regulatory risk mismatch",
     "Add concrete compliance plan and mitigation milestones to move into investor tolerance.",
     ["startup.risk.regulatory_risk_level", "startup.risk.mitigation_plan_present", "startup.risk.regulatory_domain"])),
   ("E2_defensibility_vs_preference",
    ("Strengthen defensibility narrative",
     "Increase moat clarity (IP, switching costs, data/network effects) with evidence.",
     ["startup.moat.score", "startup.moat.types"])),
   ("E3_time_horizon_risk_concentration",
    ("Align timeline and capital intensity",
     "De-risk time-to-liquidity and capex profile to better fit investor constraints.",
     ["startup.risk.time_to_liquidity_years", "startup.risk.capital_intensity_level"])),
   ("F1_pitch_deck_availability",
    ("Make deck investor-ready",
     "Improve deck completeness and decision-readiness (problem, traction, moat, use of funds).",
     ["startup.artifacts.pitch_deck_uploaded", "startup.artifacts.pitch_deck_completeness_score"])),
   ("F2_data_room_artifacts",
    ("Complete data room package",
     "Upload cap table, financial model, KPI exports, and structured data room links.",
     ["startup.artifacts.data_room_url", "startup.artifacts.cap_table_uploaded", "startup.artifacts.financial_model_uploaded", "startup.artifacts.customer_metrics_uploaded"])),
   ("F3_timeline_compatibility",
    ("Align fundraising timeline",
     "Adjust close timeline or investor process plan to avoid decision-speed mismatch.",
     ["startup.deal_preferences.timeline_to_close_days", "investor.decision_speed_days"]))]

/-- The `gate_task_template` title/description mapping. -/
def gate_task_mapping : List (String × (String × String)) :=
  [("Investor is not active.",
    ("Switch to active investor",
     "This investor is currently inactive; prioritize active investors with similar thesis.")),
   ("Investor max check is below startup minimum acceptable check.",
    ("Fix minimum ticket mismatch",
     "Lower minimum acceptable ticket or redesign syndicate to fit this investor’s max check.")),
   ("Startup falls in investor explicit geography exclusion.",
    ("Remove geography exclusion conflict",
     "Target a geo-aligned investor or adapt expansion plan to avoid excluded jurisdictions.")),
   ("Startup sector explicitly excluded by investor.",
    ("Resolve sector exclusion",
     "Position toward non-excluded segment or prioritize a sector-aligned investor.")),
   ("Startup business model explicitly excluded by investor.",
    ("Resolve business model exclusion",
     "Update packaging/pricing model or target investors that back your current model.")),
   ("Startup instrument explicitly excluded by investor.",
    ("Use accepted investment instrument",
     "Switch to investor-accepted instrument or target compatible investors.")),
   ("Regulatory domain explicitly excluded by investor.",
    ("Address regulatory domain exclusion",
     "Target investor profiles that accept your regulatory domain.")),
   ("Investor has hard geography constraint and startup is outside allowed geography.",
    ("Satisfy hard geography constraint",
     "Establish a compliant presence/traction inside investor focus geography."))]

/-- `gate_task_template` (the caller assigns `task_value` afterwards, so it
starts at 0 here in place of Python's `None`). -/
def gate_task_template (reason : String) (investor_name : String) : FitTask :=
  let td := (gate_task_mapping.lookup reason).getD
    ("Resolve hard-gate mismatch", reason)
  { task_id := "gate_" ++ slugify td.1,
    task_title := td.1,
    task_description := "For " ++ investor_name ++ ": " ++ td.2,
    task_points := 100,
    task_done := false,
    task_value := 0,
    task_type := "hard_gate",
    subcategory_key := none,
    category_key := none,
    field_hints := [] }

/-- The raw task list `generate_improvement_tasks` builds before
deduplication: one hard-gate task per failure reason, then one
score-improvement task per sub-rule with a positive gap. -/
def raw_tasks (result : MatchResult) (investor_name : String) : List FitTask :=
  let gate_fails := result.gate_fail_reasons
  let gate_tasks :=
    if gate_fails.isEmpty then []
    else
      let unlock_value_total := result.fit_score_if_eligible_0_to_100
      let per_gate_unlock :=
        round4 (unlock_value_total / (max gate_fails.length 1 : ℚ))
      gate_fails.map (fun reason =>
        { gate_task_template (py_strip reason) investor_name with
            task_value := per_gate_unlock })
  let improvement_tasks :=
    (result.category_breakdown.toList.map (fun ckv =>
      let cat_max := py_truthy_or ckv.2.max_point 1
      let cat_weight := py_truthy_or ckv.2.weight 0
      ckv.2.subcategories.filterMap (fun skv =>
        let pts := py_truthy_or skv.2.points 0
        let mx := py_truthy_or skv.2.max_points 0
        let gap := max (mx - pts) 0
        if gap ≤ 0 then none
        else
          let weighted_gap :=
            round4 ((gap / max cat_max (1/1000000000)) * cat_weight)
          let tmpl := TASK_LIBRARY.lookup skv.1
          let task_title := match tmpl with
            | some t => t.1
            | none => "Improve " ++ skv.1
          let task_desc := match tmpl with
            | some t => t.2.1
            | none => "Close scoring gap in " ++ skv.1 ++ " for " ++
                investor_name ++ "."
          let field_hints := match tmpl with
            | some t => t.2.2
            | none => []
          some { task_id := skv.1 ++ "_" ++ slugify task_title,
                 task_title := task_title,
                 task_description := "For " ++ investor_name ++ ": " ++ task_desc,
                 task_points := round4 gap,
                 task_done := false,
                 task_value := weighted_gap,
                 task_type := "score_improvement",
                 subcategory_key := some skv.1,
                 category_key := some ckv.1,
                 field_hints := field_hints }))).flatten
  gate_tasks ++ improvement_tasks

/-- One fold step of the `best_by_title` deduplication loop. -/
def dedup_step (acc : List (String × FitTask)) (t : FitTask) :
    List (String × FitTask) :=
  match acc.lookup t.task_title with
  | none => acc ++ [(t.task_title, t)]
  | some cur =>
      if cur.task_value < t.task_value then upsert acc t.task_title t
      else acc

/-- The `best_by_title` deduplication loop: dict insertion order, a later
task replacing an earlier one of the same title only when its value is
strictly higher. -/
def dedup_by_title (tasks : List FitTask) : List (String × FitTask) :=
  tasks.foldl dedup_step []

/-- The Python sort key `to_float(x.get("task_value")) or -1.0`. -/
def sort_key (v : ℚ) : ℚ := if v = 0 then -1 else v

/-- Insert into a list already sorted by descending sort key. -/
def insert_desc (t : FitTask) : List FitTask → List FitTask
  | [] => [t]
  | u :: us =>
      if sort_key t.task_value ≤ sort_key u.task_value then
        u :: insert_desc t us
      else t :: u :: us

/-- `list.sort(key=..., reverse=True)`: modelled as an insertion sort on
the same key (Python's sort is a stable mergesort; stability is the only
difference and no statement below depends on tie order). -/
def sort_desc_by_value : List FitTask → List FitTask
  | [] => []
  | t :: ts => insert_desc t (sort_desc_by_value ts)

/-- `generate_improvement_tasks`. -/
def generate_improvement_tasks (result : MatchResult)
    (startup_obj : StartupObj) (investor_obj : InvestorObj)
    (max_tasks : ℕ) : List FitTask :=
  let investor_name :=
    if (investor_obj.investor.name).getD "" = "" then "this investor"
    else (investor_obj.investor.name).getD ""
  let tasks := raw_tasks result investor_name
  let deduped := (dedup_by_title tasks).map (·.2)
  (sort_desc_by_value deduped).take max_tasks

/-! ## `deep_merge_dict` on JSON values (the LLM-refinement merge) -/

/-- JSON values as Python's `json.loads` yields them; objects keep key
insertion order. -/
inductive JVal where
  | null : JVal
  | boolean : Bool → JVal
  | num : ℚ → JVal
  | str : String → JVal
  | arr : List JVal → JVal
  | obj : List (String × JVal) → JVal
deriving Repr

/-- `deep_merge_dict(base, updates)`: walk the update entries in order;
an update value replaces the base value unless both are objects, in which
case they are merged recursively.  A JSON object's keys are unique, so the
evolving `out` dict is modelled by threading `upsert`. -/
def deep_merge_dict : List (String × JVal) → List (String × JVal) →
    List (String × JVal)
  | base, [] => base
  | base, (k, JVal.obj vs) :: rest =>
      let merged := match base.lookup k with
        | some (JVal.obj bs) => JVal.obj (deep_merge_dict bs vs)
        | _ => JVal.obj vs
      deep_merge_dict (upsert base k merged) rest
  | base, (k, v) :: rest => deep_merge_dict (upsert base k v) rest
termination_by b u => sizeOf u
decreasing_by all_goals simp_arith

/-! ## `parse_percent` on raw values, and numeric string parsing -/

/-- A raw value fed to `parse_percent`: a number or a string (a `None`
input returns `None` before either branch and is handled by callers). -/
inductive PercentValue where
  | num : ℚ → PercentValue
  | str : String → PercentValue
deriving DecidableEq, Repr

/-- Consume leading decimal digits: `(value, how many, rest)`. -/
def take_digits (acc : ℕ) (cnt : ℕ) : List Char → (ℕ × ℕ × List Char)
  | [] => (acc, cnt, [])
  | c :: rest =>
      if c.isDigit then take_digits (acc * 10 + (c.toNat - 48)) (cnt + 1) rest
      else (acc, cnt, c :: rest)

/-- Python `float(s)` on an already-stripped string: optional sign, digits
with an optional fractional part, optional exponent.  (`inf`/`nan` and
underscore digit separators, which Python also accepts, are not modelled;
no engine input uses them.) -/
def parse_float_chars (cs : List Char) : Option ℚ :=
  let sgn : ℚ := match cs with | '-' :: _ => -1 | _ => 1
  let cs1 := match cs with
    | '-' :: rest => rest
    | '+' :: rest => rest
    | _ => cs
  let ipart := take_digits 0 0 cs1
  let cs2 := ipart.2.2
  let fpart := match cs2 with
    | '.' :: rest => take_digits 0 0 rest
    | _ => (0, 0, cs2)
  if ipart.2.1 = 0 ∧ fpart.2.1 = 0 then none
  else
    let mant : ℚ := sgn * ((ipart.1 : ℚ) + (fpart.1 : ℚ) / 10 ^ fpart.2.1)
    match fpart.2.2 with
    | [] => some mant
    | e :: rest =>
        if e = 'e' ∨ e = 'E' then
          let esgn : ℤ := match rest with | '-' :: _ => -1 | _ => 1
          let rest2 := match rest with
            | '-' :: r => r
            | '+' :: r => r
            | _ => rest
          let epart := take_digits 0 0 rest2
          if epart.2.1 = 0 ∨ epart.2.2 ≠ [] then none
          else some (mant * (10 : ℚ) ^ (esgn * (epart.1 : ℤ)))
        else none

/-- `to_float` on a string: strip, drop commas and `$`/`%`, then parse
(Python's `float` itself tolerates surrounding whitespace, hence the second
trim). -/
def to_float_str (s : String) : Option ℚ :=
  let t := py_strip s
  if t = "" then none
  else
    parse_float_chars
      (py_strip (String.mk (t.toList.filter (fun c => c ≠ ',' ∧ c ≠ '$' ∧ c ≠ '%')))).toList

/-- `parse_percent` on a raw number or string. -/
def parse_percent : PercentValue → Option ℚ
  | .num x => parse_percent_num x
  | .str raw =>
      let s := py_strip raw
      if s = "" then none
      else if s.toList.getLast? = some '%' then
        match to_float_str (String.mk s.toList.dropLast) with
        | none => none
        | some v => some (v / 100)
      else
        match to_float_str s with
        | none => none
        | some v =>
            if 0 ≤ v ∧ v ≤ 1 then some v
            else if 1 < v ∧ v ≤ 100 then some (v / 100)
            else none

/-! ## Derived raise defaults in `infer_startup_heuristic` (lines 676-681) -/

/-- The three derived-default assignments of `infer_startup_heuristic`:
missing `min_ticket_usd` (resp. `max_ticket_usd`) becomes 5% (resp. 30%)
of a present `target_raise_usd`, rounded to cents; a missing
`timeline_to_close_days` becomes 90.  Returns the final
`(min_ticket_usd, max_ticket_usd, timeline_to_close_days)`. -/
def infer_raise_defaults (min_ticket_usd max_ticket_usd target_raise_usd :
    Option ℚ) (timeline_to_close_days : Option ℤ) :
    Option ℚ × Option ℚ × ℤ :=
  let minT := match min_ticket_usd, target_raise_usd with
    | none, some t => some (round2 (5/100 * t))
    | _, _ => min_ticket_usd
  let maxT := match max_ticket_usd, target_raise_usd with
    | none, some t => some (round2 (30/100 * t))
    | _, _ => max_ticket_usd
  (minT, maxT, timeline_to_close_days.getD 90)

/-! ## Completed-task override for Scenario E (C7)

`apply_completed_tasks_overrides` reads a completed-tasks file and, for a
done task with field update `"startup.team.core_roles_covered_pct": v`,
performs `set_by_dotted_path` on a deep copy of the startup object; on the
typed profile that is exactly this field update. -/

def set_core_roles_covered_pct (so : StartupObj) (v : ℚ) : StartupObj :=
  { so with startup := { so.startup with team :=
      { so.startup.team with core_roles_covered_pct := some v } } }

/-! ## Concrete inputs used by witnesses and counterexamples -/

/-- A startup profile with every field missing/empty. -/
def empty_startup : Startup :=
  { stage_normalized := none, round_normalized := none, hq_country := none,
    hq_state := none, hq_city := none, target_geographies := [],
    operating_geographies := [], sectors_normalized := [],
    subsectors_normalized := [],
    business_model := ⟨none, none, none⟩,
    raiseTerms := ⟨none, none, none, none⟩,
    deal_preferences := ⟨none, none, none⟩,
    traction := ⟨none, none, none, none, none, none, none⟩,
    milestones := ⟨none, none⟩,
    team := ⟨none, none, none⟩,
    signals := ⟨none, none, none⟩,
    risk := ⟨none, none, none, none, none⟩,
    moat := ⟨none, []⟩,
    artifacts := ⟨none, none, none, none, none, none⟩ }

/-- An investor profile with the given `active_status` and every other
field missing/empty. -/
def empty_investor (status : Option String) : Investor :=
  { name := none, active_status := status, stage_focus_normalized := [],
    stage_exclude_normalized := [], sector_focus_normalized := [],
    sector_exclude_normalized := [], business_models_include := [],
    business_models_exclude := [], prefers_b2b := none, prefers_b2c := none,
    geo_focus_normalized := [], geo_exclude_normalized := [],
    geo_hard_constraint := none, remote_ok := none, check_min_usd := none,
    check_typical_usd := none, check_max_usd := none, lead_or_follow := none,
    lead_follow_strict := none, instrument_include_normalized := [],
    instrument_exclude_normalized := [], regulatory_exclude := [],
    regulatory_tolerance_level := none,
    defensibility_preference_min_score := none,
    time_horizon_min_years := none, time_horizon_max_years := none,
    capital_intensity_tolerance_level := none, requires_pitch_deck := none,
    requires_data_room := none, decision_speed_days := none,
    source_urls := [] }

def so_empty : StartupObj := ⟨empty_startup, []⟩

def io_active : InvestorObj := ⟨empty_investor (some "active"), none⟩

def io_inactive : InvestorObj := ⟨empty_investor none, none⟩

/-- A startup that already parses to 95% core-role coverage. -/
def so_covered : StartupObj :=
  ⟨{ empty_startup with team := ⟨some (19/20), none, none⟩ }, []⟩

/-! ## Proof-support definitions -/

/-- Bundled facts about one engine sub-rule result: points in `[0, mx]`,
the declared maximum is `mx`, and the point value is a whole number. -/
def pts_in (r : RuleResult) (mx : ℚ) : Prop :=
  0 ≤ r.points ∧ r.points ≤ mx ∧ r.max_points = mx ∧ r.points.den = 1

/-- Every kept task's value dominates the value of every raw task sharing
its title (the dedup-keeps-the-best property, stated without binders). -/
def value_keeps_title_max (raw kept : List FitTask) : Prop :=
  kept.Forall (fun t =>
    raw.Forall (fun u =>
      u.task_title ≠ t.task_title ∨ u.task_value ≤ t.task_value))

/-- A match result with its timestamp field blanked, for comparing two
runs up to the clock reading. -/
def strip_time (m : MatchResult) : MatchResult :=
  { m with generated_at_utc := "" }

/-- The six category summaries `manual_match` builds when no rubric is
supplied (default maxima and weights). -/
def cat_summaries_none (s : Startup) (i : Investor) : CategoryBreakdown :=
  ⟨calc_category_summary (score_deal_compatibility s i) 125 35,
   calc_category_summary (score_sector_business_model_fit s i) 50 20,
   calc_category_summary (score_traction_vs_thesis s i) 75 15,
   calc_category_summary (score_founder_team_fit s i) 75 20,
   calc_category_summary (score_risk_regulatory_alignment s i) 75 5,
   calc_category_summary (score_diligence_process_fit s i) 75 5⟩

/-- One step of the merge: the value `deep_merge_dict` stores for update
key `k` carrying value `v`, given the current output dict `base`. -/
def merge_one (base : List (String × JVal)) (k : String) (v : JVal) : JVal :=
  match base.lookup k, v with
  | some (JVal.obj bs), JVal.obj vs => JVal.obj (deep_merge_dict bs vs)
  | _, _ => v

/-- The descending-key ordering the task sort establishes. -/
def key_ge (a b : FitTask) : Prop :=
  sort_key b.task_value ≤ sort_key a.task_value

/-! # Theorems -/

theorem round4_nonneg {q : ℚ} (h : 0 ≤ q) : 0 ≤ round4 q := by
  unfold round4
  have h1 : (0:ℚ) ≤ q * 10000 + 1/2 := by linarith
  have h2 : (0:ℤ) ≤ ⌊q * 10000 + 1/2⌋ := Int.floor_nonneg.mpr h1
  have h3 : (0:ℚ) ≤ ((⌊q * 10000 + 1/2⌋ : ℤ) : ℚ) := by exact_mod_cast h2
  positivity

theorem round4_mono {a b : ℚ} (h : a ≤ b) : round4 a ≤ round4 b := by
  unfold round4
  have h2 : ⌊a * 10000 + 1/2⌋ ≤ ⌊b * 10000 + 1/2⌋ :=
    Int.floor_le_floor (by linarith)
  have h3 : ((⌊a * 10000 + 1/2⌋ : ℤ) : ℚ) ≤ ((⌊b * 10000 + 1/2⌋ : ℤ) : ℚ) := by
    exact_mod_cast h2
  exact div_le_div_of_nonneg_right h3 (by norm_num)

theorem round4_intCast (z : ℤ) : round4 ((z : ℤ) : ℚ) = z := by
  unfold round4
  have h1 : ((z:ℚ) * 10000 + 1/2) = 1/2 + ((z * 10000 : ℤ) : ℚ) := by
    push_cast; ring
  have h0 : ⌊(1/2 : ℚ)⌋ = 0 := by
    rw [Int.floor_eq_zero_iff]; constructor <;> norm_num
  rw [h1, Int.floor_add_int, h0]
  push_cast
  field_simp

theorem round4_den_one {q : ℚ} (h : q.den = 1) : round4 q = q := by
  have hq : ((q.num : ℤ) : ℚ) = q := (Rat.den_eq_one_iff q).mp h
  rw [← hq, round4_intCast]

theorem round4_le_of_den {q W : ℚ} (hW : W.den = 1) (h : q ≤ W) :
    round4 q ≤ W := by
  calc round4 q ≤ round4 W := round4_mono h
  _ = W := round4_den_one hW

theorem a1_pts (s : Startup) (i : Investor) :
    pts_in (a1_stage_alignment s i) 30 := by
  unfold a1_stage_alignment pts_in rr
  dsimp only
  split_ifs <;> exact ⟨by norm_num, by norm_num, rfl, by decide⟩

theorem a2_pts (s : Startup) (i : Investor) :
    pts_in (a2_check_size s i) 30 := by
  unfold a2_check_size pts_in rr
  dsimp only
  split_ifs <;> exact ⟨by norm_num, by norm_num, rfl, by decide⟩

theorem a3_pts (s : Startup) (i : Investor) :
    pts_in (a3_geography_fit s i) 25 := by
  unfold a3_geography_fit pts_in rr
  dsimp only
  split_ifs <;> exact ⟨by norm_num, by norm_num, rfl, by decide⟩

theorem a4_pts (s : Startup) (i : Investor) :
    pts_in (a4_leadership_fit s i) 20 := by
  unfold a4_leadership_fit pts_in rr
  dsimp only
  split_ifs <;> exact ⟨by norm_num, by norm_num, rfl, by decide⟩

theorem a5_pts (s : Startup) (i : Investor) :
    pts_in (a5_instrument_fit s i) 20 := by
  unfold a5_instrument_fit pts_in rr
  dsimp only
  split_ifs <;> exact ⟨by norm_num, by norm_num, rfl, by decide⟩

theorem b1_pts (s : Startup) (i : Investor) :
    pts_in (b1_sector_alignment s i) 30 := by
  unfold b1_sector_alignment pts_in rr
  dsimp only
  split_ifs <;> exact ⟨by norm_num, by norm_num, rfl, by decide⟩

theorem b2_pts (s : Startup) (i : Investor) :
    pts_in (b2_business_model_fit s i) 20 := by
  unfold b2_business_model_fit pts_in rr
  dsimp only
  split_ifs <;> exact ⟨by norm_num, by norm_num, rfl, by decide⟩

theorem c1_pts (s : Startup) (i : Investor) :
    pts_in (c1_traction_evidence s i) 30 := by
  unfold c1_traction_evidence pts_in rr
  dsimp only
  split_ifs <;> exact ⟨by norm_num, by norm_num, rfl, by decide⟩

theorem c2_pts (s : Startup) (i : Investor) :
    pts_in (c2_traction_momentum s i) 20 := by
  unfold c2_traction_momentum pts_in rr
  dsimp only
  split_ifs <;> exact ⟨by norm_num, by norm_num, rfl, by decide⟩

theorem c3_pts (s : Startup) (i : Investor) :
    pts_in (c3_milestones s i) 25 := by
  unfold c3_milestones pts_in rr
  dsimp only
  split_ifs <;> exact ⟨by norm_num, by norm_num, rfl, by decide⟩

theorem d1_pts (s : Startup) (i : Investor) :
    pts_in (d1_team_completeness s i) 25 := by
  unfold d1_team_completeness pts_in rr
  dsimp only
  split_ifs <;> exact ⟨by norm_num, by norm_num, rfl, by decide⟩

theorem d2_pts (s : Startup) (i : Investor) :
    pts_in (d2_domain_execution s i) 30 := by
  unfold d2_domain_execution pts_in rr
  dsimp only
  split_ifs <;> exact ⟨by norm_num, by norm_num, rfl, by decide⟩

theorem d3_pts (s : Startup) (i : Investor) :
    pts_in (d3_coachability s i) 20 := by
  unfold d3_coachability pts_in rr
  dsimp only
  split_ifs <;> exact ⟨by norm_num, by norm_num, rfl, by decide⟩

theorem e1_pts (s : Startup) (i : Investor) :
    pts_in (e1_regulatory_exposure s i) 30 := by
  unfold e1_regulatory_exposure pts_in rr
  dsimp only
  split_ifs <;> exact ⟨by norm_num, by norm_num, rfl, by decide⟩

theorem e2_pts (s : Startup) (i : Investor) :
    pts_in (e2_defensibility s i) 25 := by
  unfold e2_defensibility pts_in rr
  dsimp only
  split_ifs <;> exact ⟨by norm_num, by norm_num, rfl, by decide⟩

theorem e3_pts (s : Startup) (i : Investor) :
    pts_in (e3_time_horizon s i) 20 := by
  unfold e3_time_horizon pts_in rr
  dsimp only
  split_ifs <;> exact ⟨by norm_num, by norm_num, rfl, by decide⟩

theorem f1_pts (s : Startup) (i : Investor) :
    pts_in (f1_pitch_deck s i) 20 := by
  unfold f1_pitch_deck pts_in rr
  dsimp only
  split_ifs <;> exact ⟨by norm_num, by norm_num, rfl, by decide⟩

theorem f2_pts (s : Startup) (i : Investor) :
    pts_in (f2_data_room s i) 35 := by
  unfold f2_data_room pts_in rr
  dsimp only
  split_ifs <;> exact ⟨by norm_num, by norm_num, rfl, by decide⟩

theorem f3_pts (s : Startup) (i : Investor) :
    pts_in (f3_timeline s i) 20 := by
  unfold f3_timeline pts_in rr
  dsimp only
  split_ifs <;> exact ⟨by norm_num, by norm_num, rfl, by decide⟩

theorem apply_rubric_points_empty (l : List RuleResult) :
    apply_rubric_points l ⟨[]⟩ = l := by
  unfold apply_rubric_points
  simp

theorem manual_match_none_breakdown (now : String) (so : StartupObj)
    (io : InvestorObj) :
    (manual_match now so io none).category_breakdown =
      cat_summaries_none so.startup io.investor := rfl

theorem manual_match_none_fit_if (now : String) (so : StartupObj)
    (io : InvestorObj) :
    (manual_match now so io none).fit_score_if_eligible_0_to_100 =
      round4 (sum_contrib (cat_summaries_none so.startup io.investor)) := rfl

theorem manual_match_none_fit (now : String) (so : StartupObj)
    (io : InvestorObj) :
    (manual_match now so io none).fit_score_0_to_100 =
      round4 (if (check_hard_gates so.startup io.investor).1 then
        sum_contrib (cat_summaries_none so.startup io.investor) else 0) := rfl

theorem deal_raw_bounds (s : Startup) (i : Investor) :
    0 ≤ ((score_deal_compatibility s i).map (·.points)).sum ∧
      ((score_deal_compatibility s i).map (·.points)).sum ≤ 125 := by
  obtain ⟨ha0, ha1, -, -⟩ := a1_pts s i
  obtain ⟨hb0, hb1, -, -⟩ := a2_pts s i
  obtain ⟨hc0, hc1, -, -⟩ := a3_pts s i
  obtain ⟨hd0, hd1, -, -⟩ := a4_pts s i
  obtain ⟨he0, he1, -, -⟩ := a5_pts s i
  simp only [score_deal_compatibility, List.map_cons, List.map_nil,
    List.sum_cons, List.sum_nil]
  constructor <;> linarith

theorem sector_raw_bounds (s : Startup) (i : Investor) :
    0 ≤ ((score_sector_business_model_fit s i).map (·.points)).sum ∧
      ((score_sector_business_model_fit s i).map (·.points)).sum ≤ 50 := by
  obtain ⟨ha0, ha1, -, -⟩ := b1_pts s i
  obtain ⟨hb0, hb1, -, -⟩ := b2_pts s i
  simp only [score_sector_business_model_fit, List.map_cons, List.map_nil,
    List.sum_cons, List.sum_nil]
  constructor <;> linarith

theorem traction_raw_bounds (s : Startup) (i : Investor) :
    0 ≤ ((score_traction_vs_thesis s i).map (·.points)).sum ∧
      ((score_traction_vs_thesis s i).map (·.points)).sum ≤ 75 := by
  obtain ⟨ha0, ha1, -, -⟩ := c1_pts s i
  obtain ⟨hb0, hb1, -, -⟩ := c2_pts s i
  obtain ⟨hc0, hc1, -, -⟩ := c3_pts s i
  simp only [score_traction_vs_thesis, List.map_cons, List.map_nil,
    List.sum_cons, List.sum_nil]
  constructor <;> linarith

theorem founder_raw_bounds (s : Startup) (i : Investor) :
    0 ≤ ((score_founder_team_fit s i).map (·.points)).sum ∧
      ((score_founder_team_fit s i).map (·.points)).sum ≤ 75 := by
  obtain ⟨ha0, ha1, -, -⟩ := d1_pts s i
  obtain ⟨hb0, hb1, -, -⟩ := d2_pts s i
  obtain ⟨hc0, hc1, -, -⟩ := d3_pts s i
  simp only [score_founder_team_fit, List.map_cons, List.map_nil,
    List.sum_cons, List.sum_nil]
  constructor <;> linarith

theorem risk_raw_bounds (s : Startup) (i : Investor) :
    0 ≤ ((score_risk_regulatory_alignment s i).map (·.points)).sum ∧
      ((score_risk_regulatory_alignment s i).map (·.points)).sum ≤ 75 := by
  obtain ⟨ha0, ha1, -, -⟩ := e1_pts s i
  obtain ⟨hb0, hb1, -, -⟩ := e2_pts s i
  obtain ⟨hc0, hc1, -, -⟩ := e3_pts s i
  simp only [score_risk_regulatory_alignment, List.map_cons, List.map_nil,
    List.sum_cons, List.sum_nil]
  constructor <;> linarith

theorem diligence_raw_bounds (s : Startup) (i : Investor) :
    0 ≤ ((score_diligence_process_fit s i).map (·.points)).sum ∧
      ((score_diligence_process_fit s i).map (·.points)).sum ≤ 75 := by
  obtain ⟨ha0, ha1, -, -⟩ := f1_pts s i
  obtain ⟨hb0, hb1, -, -⟩ := f2_pts s i
  obtain ⟨hc0, hc1, -, -⟩ := f3_pts s i
  simp only [score_diligence_process_fit, List.map_cons, List.map_nil,
    List.sum_cons, List.sum_nil]
  constructor <;> linarith

theorem contrib_bounds (rules : List RuleResult) (M W : ℚ) (hM : 0 < M)
    (hW : 0 ≤ W) (hWden : W.den = 1)
    (h0 : 0 ≤ (rules.map (·.points)).sum)
    (h1 : (rules.map (·.points)).sum ≤ M) :
    0 ≤ (calc_category_summary rules M W).weighted_contribution ∧
      (calc_category_summary rules M W).weighted_contribution ≤ W := by
  unfold calc_category_summary
  dsimp only
  rw [if_pos hM]
  have hpct0 : 0 ≤ (rules.map (·.points)).sum / M := div_nonneg h0 hM.le
  have hpct1 : (rules.map (·.points)).sum / M ≤ 1 := (div_le_one hM).mpr h1
  constructor
  · exact round4_nonneg (mul_nonneg hpct0 hW)
  · exact round4_le_of_den hWden (by nlinarith)

theorem fit_sum_bounds (s : Startup) (i : Investor) :
    0 ≤ sum_contrib (cat_summaries_none s i) ∧
      sum_contrib (cat_summaries_none s i) ≤ 100 := by
  obtain ⟨h10, h11⟩ := contrib_bounds (score_deal_compatibility s i) 125 35
    (by norm_num) (by norm_num) (by decide)
    (deal_raw_bounds s i).1 (deal_raw_bounds s i).2
  obtain ⟨h20, h21⟩ := contrib_bounds (score_sector_business_model_fit s i) 50 20
    (by norm_num) (by norm_num) (by decide)
    (sector_raw_bounds s i).1 (sector_raw_bounds s i).2
  obtain ⟨h30, h31⟩ := contrib_bounds (score_traction_vs_thesis s i) 75 15
    (by norm_num) (by norm_num) (by decide)
    (traction_raw_bounds s i).1 (traction_raw_bounds s i).2
  obtain ⟨h40, h41⟩ := contrib_bounds (score_founder_team_fit s i) 75 20
    (by norm_num) (by norm_num) (by decide)
    (founder_raw_bounds s i).1 (founder_raw_bounds s i).2
  obtain ⟨h50, h51⟩ := contrib_bounds (score_risk_regulatory_alignment s i) 75 5
    (by norm_num) (by norm_num) (by decide)
    (risk_raw_bounds s i).1 (risk_raw_bounds s i).2
  obtain ⟨h60, h61⟩ := contrib_bounds (score_diligence_process_fit s i) 75 5
    (by norm_num) (by norm_num) (by decide)
    (diligence_raw_bounds s i).1 (diligence_raw_bounds s i).2
  unfold sum_contrib cat_summaries_none CategoryBreakdown.toList
  simp only [List.map_cons, List.map_nil, List.sum_cons, List.sum_nil]
  constructor <;> linarith

theorem sub_bound {r : RuleResult} {mx : ℚ} (h : pts_in r mx) :
    0 ≤ round4 r.points ∧ round4 r.points ≤ round4 r.max_points :=
  ⟨round4_nonneg h.1, by rw [h.2.2.1]; exact round4_mono h.2.1⟩

/-- Claim C1: for every startup-investor profile pair scored by
`manual_match` (default rubric configuration), the returned
`fit_score_0_to_100` and `fit_score_if_eligible_0_to_100` both lie in
[0, 100], and every sub-rule entry of the category breakdown satisfies
`0 ≤ points ≤ max_points`. -/
theorem C1_manual_match_score_and_subrule_bounds (now : String)
    (so : StartupObj) (io : InvestorObj) :
    (0 ≤ (manual_match now so io none).fit_score_0_to_100 ∧
      (manual_match now so io none).fit_score_0_to_100 ≤ 100) ∧
    (0 ≤ (manual_match now so io none).fit_score_if_eligible_0_to_100 ∧
      (manual_match now so io none).fit_score_if_eligible_0_to_100 ≤ 100) ∧
    ((manual_match now so io none).category_breakdown.allSubs.Forall
      (fun kv => 0 ≤ kv.2.points ∧ kv.2.points ≤ kv.2.max_points)) := by
  obtain ⟨hs0, hs1⟩ := fit_sum_bounds so.startup io.investor
  have h100 : ((100 : ℚ)).den = 1 := by decide
  refine ⟨?_, ?_, ?_⟩
  · rw [manual_match_none_fit]
    by_cases h : (check_hard_gates so.startup io.investor).1
    · rw [if_pos h]
      exact ⟨round4_nonneg hs0, round4_le_of_den h100 hs1⟩
    · rw [if_neg h]
      exact ⟨round4_nonneg le_rfl, round4_le_of_den h100 (by norm_num)⟩
  · rw [manual_match_none_fit_if]
    exact ⟨round4_nonneg hs0, round4_le_of_den h100 hs1⟩
  · rw [manual_match_none_breakdown]
    unfold cat_summaries_none CategoryBreakdown.allSubs CategoryBreakdown.toList
      calc_category_summary score_deal_compatibility
      score_sector_business_model_fit score_traction_vs_thesis
      score_founder_team_fit score_risk_regulatory_alignment
      score_diligence_process_fit
    dsimp only
    simp only [List.map_cons, List.map_nil, List.flatten_cons, List.flatten_nil,
      List.append_nil, List.cons_append, List.nil_append, List.Forall]
    exact ⟨sub_bound (a1_pts so.startup io.investor),
      sub_bound (a2_pts so.startup io.investor),
      sub_bound (a3_pts so.startup io.investor),
      sub_bound (a4_pts so.startup io.investor),
      sub_bound (a5_pts so.startup io.investor),
      sub_bound (b1_pts so.startup io.investor),
      sub_bound (b2_pts so.startup io.investor),
      sub_bound (c1_pts so.startup io.investor),
      sub_bound (c2_pts so.startup io.investor),
      sub_bound (c3_pts so.startup io.investor),
      sub_bound (d1_pts so.startup io.investor),
      sub_bound (d2_pts so.startup io.investor),
      sub_bound (d3_pts so.startup io.investor),
      sub_bound (e1_pts so.startup io.investor),
      sub_bound (e2_pts so.startup io.investor),
      sub_bound (e3_pts so.startup io.investor),
      sub_bound (f1_pts so.startup io.investor),
      sub_bound (f2_pts so.startup io.investor),
      sub_bound (f3_pts so.startup io.investor)⟩

theorem round4_zero : round4 0 = 0 := by norm_num [round4]

theorem manual_match_eligible_eq (now : String) (so : StartupObj)
    (io : InvestorObj) (rubric : Option Rubric) :
    (manual_match now so io rubric).eligible =
      (check_hard_gates so.startup io.investor).1 := rfl

theorem manual_match_gate_reasons_eq (now : String) (so : StartupObj)
    (io : InvestorObj) (rubric : Option Rubric) :
    (manual_match now so io rubric).gate_fail_reasons =
      (check_hard_gates so.startup io.investor).2 := rfl

theorem manual_match_fit_ite (now : String) (so : StartupObj)
    (io : InvestorObj) (rubric : Option Rubric) :
    (manual_match now so io rubric).fit_score_0_to_100 =
      round4 (if (check_hard_gates so.startup io.investor).1 then
        sum_contrib (manual_match now so io rubric).category_breakdown
        else 0) := rfl

theorem manual_match_fit_if_sum (now : String) (so : StartupObj)
    (io : InvestorObj) (rubric : Option Rubric) :
    (manual_match now so io rubric).fit_score_if_eligible_0_to_100 =
      round4 (sum_contrib (manual_match now so io rubric).category_breakdown) :=
  rfl

theorem check_hard_gates_fst (s : Startup) (i : Investor) :
    (check_hard_gates s i).1 = ((check_hard_gates s i).2).isEmpty := by
  simp only [check_hard_gates]

/-- Claim C2: whenever a hard gate fails (`eligible = false`),
`manual_match` still returns the full result: the final score is forced to
0, `fit_score_if_eligible_0_to_100` still equals the (rounded) sum of the
weighted contributions of the returned category breakdown, all 19 sub-rule
entries are present in the breakdown, and the gate failure reasons are
non-empty — the result is reported, not omitted. -/
theorem C2_ineligible_still_full_result (now : String) (so : StartupObj)
    (io : InvestorObj) (rubric : Option Rubric)
    (h : (manual_match now so io rubric).eligible = false) :
    (manual_match now so io rubric).fit_score_0_to_100 = 0 ∧
    (manual_match now so io rubric).fit_score_if_eligible_0_to_100 =
      round4 (sum_contrib (manual_match now so io rubric).category_breakdown) ∧
    (manual_match now so io rubric).category_breakdown.allSubs.length = 19 ∧
    (manual_match now so io rubric).gate_fail_reasons ≠ [] := by
  have hc : (check_hard_gates so.startup io.investor).1 = false := by
    rw [← manual_match_eligible_eq now so io rubric]; exact h
  refine ⟨?_, manual_match_fit_if_sum now so io rubric, ?_, ?_⟩
  · rw [manual_match_fit_ite now so io rubric, hc]
    simp [round4_zero]
  · rfl
  · rw [manual_match_gate_reasons_eq now so io rubric]
    have := check_hard_gates_fst so.startup io.investor
    rw [this] at hc
    simpa [List.isEmpty_iff] using hc

theorem C2_witness_ineligible_pair :
    (manual_match "t" so_empty io_inactive none).fit_score_0_to_100 = 0 ∧
    (manual_match "t" so_empty io_inactive none).gate_fail_reasons ≠ [] :=
  ⟨(C2_ineligible_still_full_result "t" so_empty io_inactive none (by decide)).1,
   (C2_ineligible_still_full_result "t" so_empty io_inactive none
      (by decide)).2.2.2⟩

/-- Claim C3 counterexample: two runs of `manual_match` on identical
profiles and rubric, with the wall clock having advanced between the calls,
give Match Results that are not byte-identical — `generated_at_utc` records
the clock. -/
theorem C3_counterexample_two_runs_differ :
    manual_match "2025-01-01T00:00:00Z" so_empty io_active none ≠
      manual_match "2025-01-01T00:00:01Z" so_empty io_active none := by
  intro h
  have e1 : (manual_match "2025-01-01T00:00:00Z" so_empty io_active
      none).generated_at_utc = "2025-01-01T00:00:00Z" := rfl
  have e2 : (manual_match "2025-01-01T00:00:01Z" so_empty io_active
      none).generated_at_utc = "2025-01-01T00:00:01Z" := rfl
  have h2 : "2025-01-01T00:00:00Z" = "2025-01-01T00:00:01Z" := by
    rw [← e1, ← e2, h]
  exact absurd h2 (by decide)

/-- Claim C3 (amended): running the engine twice on identical inputs with
no LLM step yields Match Results identical in every field except
`generated_at_utc`, which records the wall-clock reading of the call. -/
theorem C3_deterministic_up_to_timestamp (now1 now2 : String)
    (so : StartupObj) (io : InvestorObj) (rubric : Option Rubric) :
    strip_time (manual_match now1 so io rubric) =
      strip_time (manual_match now2 so io rubric) := rfl

/-- Claim C4 counterexample: a rubric entry for `A1_stage_alignment` that
declares `maximum_points = 50` but whose options do not contain the
matched condition `default_non_focus_stage`.  `apply_rubric_points` keeps
the points (10) but replaces `max_points` 30 by 50 — the rule result does
not come back unchanged as the claim states. -/
theorem C4_counterexample_max_replaced_without_option_hit :
    apply_rubric_points
      [⟨"A1_stage_alignment", 10, 30, "default_non_focus_stage",
        "Stage not focused and not excluded."⟩]
      ⟨[("A1_stage_alignment", ⟨"deal_compatibility", some 50, [], []⟩)]⟩ =
      [⟨"A1_stage_alignment", 10, 50, "default_non_focus_stage",
        "Stage not focused and not excluded."⟩] ∧
    (50 : ℚ) ≠ 30 := by
  constructor
  · decide
  · decide

/-- Claim C4 (amended): for a rule result whose key has no rubric entry,
`apply_rubric_points` returns it unchanged; when an entry exists, `points`
is the entry's option value for the normalized matched condition (the
engine's value when the condition is absent from the options), while
`max_points` is always replaced by the entry's declared maximum when one
is declared — only a missing declared maximum leaves `max_points`
unchanged.  The last conjunct reduces the list version to the per-rule
one. -/
theorem C4_rubric_override_per_rule (idx : RubricIndex) (r : RuleResult) :
    (idx.subrules.lookup r.key = none → apply_rubric_points [r] idx = [r]) ∧
    (∀ cfg : RubricSubruleCfg, idx.subrules.lookup r.key = some cfg →
      apply_rubric_points [r] idx =
        [⟨r.key,
          (cfg.options.lookup (normalize_condition_key r.matched_condition)).getD
            r.points,
          cfg.maximum_points.getD r.max_points,
          r.matched_condition, r.reason⟩]) ∧
    (∀ rules : List RuleResult,
      apply_rubric_points rules idx =
        (rules.map (fun x => apply_rubric_points [x] idx)).flatten) := by
  refine ⟨?_, ?_, ?_⟩
  · intro h
    simp only [apply_rubric_points, List.map_cons, List.map_nil, h]
  · intro cfg h
    simp only [apply_rubric_points, List.map_cons, List.map_nil, h]
    cases hm : cfg.maximum_points <;> simp [Option.getD]
  · intro rules
    induction rules with
    | nil => rfl
    | cons x xs ih =>
        simp only [apply_rubric_points, List.map_cons, List.map_nil,
          List.flatten_cons] at *
        rw [ih]
        simp

theorem lookup_map_replace {α : Type} (k : String) (v : α) :
    ∀ l : List (String × α), (l.lookup k).isSome →
      (l.map (fun kv => if kv.1 = k then (k, v) else kv)).lookup k = some v := by
  intro l
  induction l with
  | nil => intro h; simp at h
  | cons x xs ih =>
      intro h
      by_cases hx : x.1 = k
      · rw [List.map_cons, if_pos hx]
        simp [List.lookup]
      · rw [List.map_cons, if_neg hx]
        have hb : (k == x.1) = false :=
          beq_eq_false_iff_ne.mpr (fun he => hx he.symm)
        rw [List.lookup, hb] at h ⊢
        exact ih h

theorem lookup_map_replace_ne {α : Type} (k k' : String) (v : α)
    (hne : k' ≠ k) :
    ∀ l : List (String × α),
      (l.map (fun kv => if kv.1 = k then (k, v) else kv)).lookup k' =
        l.lookup k' := by
  intro l
  induction l with
  | nil => rfl
  | cons x xs ih =>
      by_cases hx : x.1 = k
      · rw [List.map_cons, if_pos hx]
        have hb : (k' == k) = false := beq_eq_false_iff_ne.mpr hne
        have hb2 : (k' == x.1) = false := by rw [hx]; exact hb
        rw [List.lookup, List.lookup, hb, hb2]
        exact ih
      · rw [List.map_cons, if_neg hx]
        rw [List.lookup, List.lookup]
        cases hky : (k' == x.1) <;> simp [ih]

theorem lookup_append_single {α : Type} (k : String) (v : α) :
    ∀ l : List (String × α), (l.lookup k).isSome = false →
      (l ++ [(k, v)]).lookup k = some v := by
  intro l
  induction l with
  | nil => intro h; simp [List.lookup]
  | cons x xs ih =>
      intro h
      rw [List.lookup] at h
      rw [List.cons_append, List.lookup]
      cases hky : (k == x.1) with
      | true => rw [hky] at h; simp at h
      | false => rw [hky] at h; exact ih h

theorem lookup_append_single_ne {α : Type} (k k' : String) (v : α)
    (hne : k' ≠ k) :
    ∀ l : List (String × α), (l ++ [(k, v)]).lookup k' = l.lookup k' := by
  intro l
  induction l with
  | nil => simp [List.lookup, beq_eq_false_iff_ne.mpr hne]
  | cons x xs ih =>
      rw [List.cons_append, List.lookup, List.lookup]
      cases hky : (k' == x.1) <;> simp [ih]

theorem lookup_upsert_self {α : Type} (l : List (String × α)) (k : String)
    (v : α) : (upsert l k v).lookup k = some v := by
  unfold upsert
  split
  case isTrue h => exact lookup_map_replace k v l h
  case isFalse h => exact lookup_append_single k v l (Bool.eq_false_iff.mpr h)

theorem lookup_upsert_ne {α : Type} (l : List (String × α)) (k k' : String)
    (v : α) (hne : k' ≠ k) : (upsert l k v).lookup k' = l.lookup k' := by
  unfold upsert
  split
  case isTrue h => exact lookup_map_replace_ne k k' v hne l
  case isFalse h => exact lookup_append_single_ne k k' v hne l

theorem lookup_eq_none_of_not_mem {α : Type} (k : String) :
    ∀ l : List (String × α), k ∉ l.map Prod.fst → l.lookup k = none := by
  intro l
  induction l with
  | nil => intro h; rfl
  | cons x xs ih =>
      intro h
      rw [List.map_cons] at h
      rw [List.lookup]
      have hb : (k == x.1) = false :=
        beq_eq_false_iff_ne.mpr (List.ne_of_not_mem_cons h)
      rw [hb]
      exact ih (List.not_mem_of_not_mem_cons h)

theorem merge_one_congr (b1 b2 : List (String × JVal)) (k : String)
    (v : JVal) (h : b1.lookup k = b2.lookup k) :
    merge_one b1 k v = merge_one b2 k v := by
  unfold merge_one
  rw [h]

theorem deep_merge_cons (base : List (String × JVal)) (k : String)
    (v : JVal) (rest : List (String × JVal)) :
    deep_merge_dict base ((k, v) :: rest) =
      deep_merge_dict (upsert base k (merge_one base k v)) rest := by
  cases v <;>
    (cases hb : base.lookup k with
      | none => unfold merge_one; simp [deep_merge_dict, hb]
      | some b => cases b <;> unfold merge_one <;> simp [deep_merge_dict, hb])

/-- Claim C6 counterexample: a response that carries `null` for field `"a"`
overwrites the draft's existing value `1` — the merge does not leave the
draft's value unchanged on a null response field. -/
theorem C6_counterexample_null_overwrites :
    deep_merge_dict [("a", JVal.num 1)] [("a", JVal.null)] =
      [("a", JVal.null)] ∧
    JVal.null ≠ JVal.num 1 := by
  constructor
  · rw [deep_merge_cons]
    unfold merge_one
    simp [deep_merge_dict, upsert, List.lookup]
  · intro h
    cases h

/-- Claim C6 (amended): `deep_merge_dict` merges the response over the
draft field-by-field, taking the response's value unconditionally whenever
the field is present — a `null` response value replaces the draft's value
just like any other; nested objects are merged recursively; the draft's
value survives only when the response omits the field altogether. -/
theorem C6_merge_takes_update_value (base upd : List (String × JVal))
    (k : String) (h : (upd.map Prod.fst).Nodup) :
    (deep_merge_dict base upd).lookup k =
      match upd.lookup k with
      | none => base.lookup k
      | some v => some (merge_one base k v) := by
  induction upd generalizing base with
  | nil => simp [deep_merge_dict, List.lookup]
  | cons x xs ih =>
      obtain ⟨k0, v0⟩ := x
      rw [deep_merge_cons]
      rw [List.map_cons] at h
      have hpair := List.nodup_cons.mp h
      by_cases hk : k = k0
      · subst hk
        have hxs : xs.lookup k = none :=
          lookup_eq_none_of_not_mem k xs hpair.1
        rw [ih _ hpair.2, hxs, List.lookup]
        simp [lookup_upsert_self]
      · have hb : (k == k0) = false := beq_eq_false_iff_ne.mpr hk
        rw [ih _ hpair.2, List.lookup, hb]
        cases hx : xs.lookup k with
        | none => simp [lookup_upsert_ne base k0 k _ hk]
        | some v =>
            simp only []
            congr 1
            exact merge_one_congr _ _ k v (lookup_upsert_ne base k0 k _ hk)

theorem C6_witness_null_response_field :
    (deep_merge_dict [("a", JVal.num 1)] [("a", JVal.null)]).lookup "a" =
      some JVal.null := by
  have h := C6_merge_takes_update_value [("a", JVal.num 1)]
    [("a", JVal.null)] "a" (by simp)
  rw [h]
  unfold merge_one
  simp [List.lookup]

theorem d1_after_override (so : StartupObj) (i : Investor) :
    (d1_team_completeness (set_core_roles_covered_pct so 1).startup i).points
      = 25 := by
  unfold d1_team_completeness set_core_roles_covered_pct parse_percent_opt
    parse_percent_num oge rr
  norm_num

theorem d1_before_bound (s : Startup) (i : Investor)
    (h : oge (parse_percent_opt s.team.core_roles_covered_pct) (9/10) = false) :
    (d1_team_completeness s i).points ≤ 18 := by
  unfold d1_team_completeness
  dsimp only
  simp only [h]
  split_ifs <;> simp_all [rr] <;> norm_num

/-- Claim C7 (amended): re-scoring after a completed-task override that
sets `startup.team.core_roles_covered_pct = 1.0` strictly increases the
Founder/Team Fit raw points whenever the pre-override coverage does not
already parse to at least 0.9; when it does, the D1 sub-rule is already at
its 25-point maximum and the raw points are unchanged (see the
counterexample). -/
theorem C7_override_strictly_increases (now : String) (so : StartupObj)
    (io : InvestorObj)
    (h : oge (parse_percent_opt so.startup.team.core_roles_covered_pct)
      (9/10) = false) :
    (manual_match now so io none).category_breakdown.founder_team_fit.raw_points
      < (manual_match now (set_core_roles_covered_pct so 1) io
          none).category_breakdown.founder_team_fit.raw_points := by
  rw [manual_match_none_breakdown, manual_match_none_breakdown]
  show (calc_category_summary
      (score_founder_team_fit so.startup io.investor) 75 20).raw_points <
    (calc_category_summary
      (score_founder_team_fit (set_core_roles_covered_pct so 1).startup
        io.investor) 75 20).raw_points
  unfold calc_category_summary score_founder_team_fit
  dsimp only
  simp only [List.map_cons, List.map_nil, List.sum_cons, List.sum_nil]
  have hd2 : d2_domain_execution (set_core_roles_covered_pct so 1).startup
      io.investor = d2_domain_execution so.startup io.investor := rfl
  have hd3 : d3_coachability (set_core_roles_covered_pct so 1).startup
      io.investor = d3_coachability so.startup io.investor := rfl
  rw [hd2, hd3, d1_after_override so io.investor]
  obtain ⟨hp10, -, -, hden1⟩ := d1_pts so.startup io.investor
  obtain ⟨hp20, hp21, -, hden2⟩ := d2_pts so.startup io.investor
  obtain ⟨hp30, hp31, -, hden3⟩ := d3_pts so.startup io.investor
  have hb18 := d1_before_bound so.startup io.investor h
  have e1 := (Rat.den_eq_one_iff _).mp hden1
  have e2 := (Rat.den_eq_one_iff _).mp hden2
  have e3 := (Rat.den_eq_one_iff _).mp hden3
  rw [← e1, ← e2, ← e3]
  have c1 : (((d1_team_completeness so.startup io.investor).points.num : ℤ) : ℚ)
      + ((((d2_domain_execution so.startup io.investor).points.num : ℤ) : ℚ)
      + ((((d3_coachability so.startup io.investor).points.num : ℤ) : ℚ) + 0)) =
      (((d1_team_completeness so.startup io.investor).points.num
        + (d2_domain_execution so.startup io.investor).points.num
        + (d3_coachability so.startup io.investor).points.num : ℤ) : ℚ) := by
    push_cast
    ring
  have c2 : (25 : ℚ)
      + ((((d2_domain_execution so.startup io.investor).points.num : ℤ) : ℚ)
      + ((((d3_coachability so.startup io.investor).points.num : ℤ) : ℚ) + 0)) =
      ((25 + (d2_domain_execution so.startup io.investor).points.num
        + (d3_coachability so.startup io.investor).points.num : ℤ) : ℚ) := by
    push_cast
    ring
  rw [c1, c2, round4_intCast, round4_intCast]
  have hn1 : (d1_team_completeness so.startup io.investor).points.num ≤ 18 := by
    have : (((d1_team_completeness so.startup io.investor).points.num : ℤ) : ℚ)
        ≤ 18 := by rw [e1]; exact hb18
    exact_mod_cast this
  have goal_int : (d1_team_completeness so.startup io.investor).points.num
      + (d2_domain_execution so.startup io.investor).points.num
      + (d3_coachability so.startup io.investor).points.num <
      25 + (d2_domain_execution so.startup io.investor).points.num
      + (d3_coachability so.startup io.investor).points.num := by
    linarith
  exact_mod_cast goal_int

theorem C7_witness_empty_coverage :
    (manual_match "t" so_empty io_active
        none).category_breakdown.founder_team_fit.raw_points <
      (manual_match "t" (set_core_roles_covered_pct so_empty 1) io_active
        none).category_breakdown.founder_team_fit.raw_points :=
  C7_override_strictly_increases "t" so_empty io_active rfl

/-- Claim C7 counterexample: a startup whose coverage already parses to
0.95 gets the maximal 25 D1 points before and after the override, so the
Founder/Team Fit raw points do not strictly increase — the claim fails for
this pair. -/
theorem C7_counterexample_already_covered :
    (manual_match "t" (set_core_roles_covered_pct so_covered 1) io_active
        none).category_breakdown.founder_team_fit.raw_points =
      (manual_match "t" so_covered io_active
        none).category_breakdown.founder_team_fit.raw_points := by
  rw [manual_match_none_breakdown, manual_match_none_breakdown]
  show (calc_category_summary
      (score_founder_team_fit (set_core_roles_covered_pct so_covered 1).startup
        io_active.investor) 75 20).raw_points =
    (calc_category_summary
      (score_founder_team_fit so_covered.startup io_active.investor)
        75 20).raw_points
  have hd1 : d1_team_completeness so_covered.startup io_active.investor =
      rr "D1_team_completeness_vs_stage" 25 25
        "startup.team.core_roles_covered_pct >= 0.9"
        "Excellent role coverage." := by
    unfold d1_team_completeness so_covered empty_startup parse_percent_opt
      parse_percent_num oge
    norm_num
  have hd1a : d1_team_completeness
      (set_core_roles_covered_pct so_covered 1).startup io_active.investor =
      rr "D1_team_completeness_vs_stage" 25 25
        "startup.team.core_roles_covered_pct >= 0.9"
        "Excellent role coverage." := by
    unfold d1_team_completeness set_core_roles_covered_pct so_covered
      empty_startup parse_percent_opt parse_percent_num oge
    norm_num
  have hd2 : d2_domain_execution (set_core_roles_covered_pct so_covered
      1).startup io_active.investor =
      d2_domain_execution so_covered.startup io_active.investor := rfl
  have hd3 : d3_coachability (set_core_roles_covered_pct so_covered
      1).startup io_active.investor =
      d3_coachability so_covered.startup io_active.investor := rfl
  unfold calc_category_summary score_founder_team_fit
  dsimp only
  rw [hd1, hd1a, hd2, hd3]

/-- Claim C8 counterexample: with `target_raise_usd = 0.13` and
`min_ticket_usd` missing, the derived default is `round(0.05 * 0.13, 2) =
0.01`, not 5% of the target (`0.0065`) — the code rounds to cents. -/
theorem C8_counterexample_rounding :
    (infer_raise_defaults none none (some (13/100)) none).1 = some (1/100) ∧
    (1/100 : ℚ) ≠ 5/100 * (13/100) := by
  constructor
  · show some (round2 (5/100 * (13/100))) = some (1/100)
    norm_num [round2]
  · norm_num

/-- Claim C8 (amended): in startup normalization, a missing
`min_ticket_usd` (resp. `max_ticket_usd`) with `target_raise_usd` present
becomes 5% (resp. 30%) of the target rounded to 2 decimal places, and a
missing `timeline_to_close_days` becomes 90. -/
theorem C8_derived_raise_defaults (mT xT tgt : Option ℚ) (t : ℚ)
    (tl : Option ℤ) :
    (mT = none → tgt = some t →
      (infer_raise_defaults mT xT tgt tl).1 = some (round2 (5/100 * t))) ∧
    (xT = none → tgt = some t →
      (infer_raise_defaults mT xT tgt tl).2.1 = some (round2 (30/100 * t))) ∧
    (tl = none → (infer_raise_defaults mT xT tgt tl).2.2 = 90) := by
  refine ⟨?_, ?_, ?_⟩
  · intro h1 h2
    subst h1
    subst h2
    rfl
  · intro h1 h2
    subst h1
    subst h2
    rfl
  · intro h1
    subst h1
    rfl

/-- Claim C10: `parse_percent` keeps a number in [0,1] as-is, divides a
number in (1,100] by 100, and maps a number below 0 or above 100 to `None`
(never clamped) — so 1 reads as 100% while 2 reads as 2%; a string ending
in `%` has its numeric prefix divided by 100 with no range check, so
`"250%"` yields 2.5 even though the number 250 yields `None`. -/
theorem C10_parse_percent_semantics :
    (∀ x : ℚ, 0 ≤ x → x ≤ 1 → parse_percent (.num x) = some x) ∧
    (∀ x : ℚ, 1 < x → x ≤ 100 → parse_percent (.num x) = some (x / 100)) ∧
    (∀ x : ℚ, x < 0 → parse_percent (.num x) = none) ∧
    (∀ x : ℚ, 100 < x → parse_percent (.num x) = none) ∧
    parse_percent (.num 1) = some 1 ∧
    parse_percent (.num 2) = some (1/50) ∧
    parse_percent (.str "250%") = some (5/2) ∧
    parse_percent (.num 250) = none ∧
    (∀ s : String, py_strip s ≠ "" →
      (py_strip s).toList.getLast? = some '%' →
      parse_percent (.str s) =
        (to_float_str (String.mk (py_strip s).toList.dropLast)).map
          (fun v => v / 100)) := by
  refine ⟨?_, ?_, ?_, ?_, ?_, ?_, ?_, ?_, ?_⟩
  · intro x h0 h1
    unfold parse_percent parse_percent_num
    dsimp only
    rw [if_pos ⟨h0, h1⟩]
  · intro x h0 h1
    unfold parse_percent parse_percent_num
    dsimp only
    rw [if_neg (by intro hc; linarith [hc.2]), if_pos ⟨h0, h1⟩]
  · intro x h0
    unfold parse_percent parse_percent_num
    dsimp only
    rw [if_neg (by intro hc; linarith [hc.1]),
      if_neg (by intro hc; linarith [hc.1])]
  · intro x h0
    unfold parse_percent parse_percent_num
    dsimp only
    rw [if_neg (by intro hc; linarith [hc.2]),
      if_neg (by intro hc; linarith [hc.2])]
  · unfold parse_percent parse_percent_num
    dsimp only
    norm_num
  · unfold parse_percent parse_percent_num
    dsimp only
    norm_num
  · rw [show parse_percent (.str "250%") =
      some (1 * (((250:ℕ):ℚ) + ((0:ℕ):ℚ) / 10 ^ (0:ℕ)) / 100) from rfl]
    norm_num
  · unfold parse_percent parse_percent_num
    dsimp only
    norm_num
  · intro s h1 h2
    unfold parse_percent
    dsimp only
    rw [if_neg h1, if_pos h2]
    cases to_float_str (String.mk (py_strip s).toList.dropLast) <;> rfl

theorem not_overlap_nil (a : List String) : ¬ overlap a [] := by
  rintro ⟨x, hx, hmem⟩
  simp [list_norm_set] at hmem

theorem ne_nil_of_mem_lns {x : String} {l : List String}
    (h : x ∈ list_norm_set l) : l ≠ [] := by
  rintro rfl
  simp [list_norm_set] at h

theorem mem_gate_ite {c : Prop} [inst : Decidable c] {x a : String}
    (h : x ∈ (if c then [a] else [])) : c ∧ x = a := by
  split_ifs at h with hc
  · exact ⟨hc, by simpa using h⟩
  · simp at h

theorem gate_fails_sound (s : Startup) (i : Investor) (x : String)
    (h : x ∈ gate_fails s i) :
    ((norm_text i.active_status ≠ "active") ∧
      x = "Investor is not active.") ∨
    ((∃ cm mt, i.check_max_usd = some cm ∧
        s.raiseTerms.min_ticket_usd = some mt ∧ cm < mt) ∧
      x = "Investor max check is below startup minimum acceptable check.") ∨
    (overlap (to_geo_union s) i.geo_exclude_normalized ∧
      x = "Startup falls in investor explicit geography exclusion.") ∨
    (overlap s.sectors_normalized i.sector_exclude_normalized ∧
      x = "Startup sector explicitly excluded by investor.") ∨
    ((norm_text s.business_model.primary ≠ "" ∧
        norm_text s.business_model.primary ∈
          list_norm_set i.business_models_exclude) ∧
      x = "Startup business model explicitly excluded by investor.") ∨
    ((norm_text s.raiseTerms.instrument_normalized ≠ "" ∧
        norm_text s.raiseTerms.instrument_normalized ∈
          list_norm_set i.instrument_exclude_normalized) ∧
      x = "Startup instrument explicitly excluded by investor.") ∨
    ((norm_text s.risk.regulatory_domain ≠ "" ∧
        norm_text s.risk.regulatory_domain ∈
          list_norm_set i.regulatory_exclude) ∧
      x = "Regulatory domain explicitly excluded by investor.") ∨
    ((i.geo_hard_constraint = some true ∧
        ¬ overlap (to_geo_union s) i.geo_focus_normalized) ∧
      x = "Investor has hard geography constraint and startup is outside allowed geography.") := by
  unfold gate_fails at h
  simp only [List.mem_append] at h
  rcases h with ((((((h | h) | h) | h) | h) | h) | h) | h
  · exact Or.inl (mem_gate_ite h)
  · refine Or.inr (Or.inl ?_)
    rcases hcm : i.check_max_usd with _ | cm
    · rw [hcm] at h; simp at h
    · rcases hmt : s.raiseTerms.min_ticket_usd with _ | mt
      · rw [hcm, hmt] at h; simp at h
      · rw [hcm, hmt] at h
        have := mem_gate_ite h
        exact ⟨⟨cm, mt, rfl, rfl, this.1⟩, this.2⟩
  · exact Or.inr (Or.inr (Or.inl (mem_gate_ite h)))
  · exact Or.inr (Or.inr (Or.inr (Or.inl (mem_gate_ite h))))
  · exact Or.inr (Or.inr (Or.inr (Or.inr (Or.inl (mem_gate_ite h)))))
  · exact Or.inr (Or.inr (Or.inr (Or.inr (Or.inr (Or.inl (mem_gate_ite h))))))
  · exact Or.inr (Or.inr (Or.inr (Or.inr (Or.inr (Or.inr (Or.inl
      (mem_gate_ite h)))))))
  · exact Or.inr (Or.inr (Or.inr (Or.inr (Or.inr (Or.inr (Or.inr
      (mem_gate_ite h)))))))

theorem empty_active_eligible (s' : Startup) :
    check_hard_gates s' (empty_investor (some "active")) = (true, []) := by
  have hg : gate_fails s' (empty_investor (some "active")) = [] := by
    unfold gate_fails empty_investor
    dsimp only
    rw [if_neg (by decide : ¬ (norm_text (some "active") ≠ "active"))]
    have h5 : ∀ t : String, ¬ (t ≠ "" ∧ t ∈ list_norm_set []) := by
      rintro t ⟨-, hm⟩
      simp [list_norm_set] at hm
    have h8 : ¬ ((none : Option Bool) = some true ∧
        ¬ overlap (to_geo_union s') []) := by
      rintro ⟨hc, -⟩
      cases hc
    rw [if_neg (not_overlap_nil _), if_neg (not_overlap_nil _),
      if_neg (h5 _), if_neg (h5 _), if_neg (h5 _), if_neg h8]
    simp
  unfold check_hard_gates
  rw [hg]
  rfl

theorem check_hard_gates_snd (s : Startup) (i : Investor) :
    (check_hard_gates s i).2 = gate_fails s i := rfl

/-- Claim C9: each hard gate other than the active-status gate fires only
when its required inputs are present and non-empty (for each failure
reason, the fields the gate reads are shown to be present); a pair of
otherwise-empty profiles whose investor `active_status` is `"active"` is
always eligible (indeed any startup paired with an otherwise-empty active
investor is); conversely a missing or empty `active_status` fails the
active-status gate. -/
theorem C9_gates_need_present_inputs (s : Startup) (i : Investor) :
    (("Investor max check is below startup minimum acceptable check." ∈
        (check_hard_gates s i).2) →
      i.check_max_usd ≠ none ∧ s.raiseTerms.min_ticket_usd ≠ none) ∧
    (("Startup falls in investor explicit geography exclusion." ∈
        (check_hard_gates s i).2) →
      to_geo_union s ≠ [] ∧ i.geo_exclude_normalized ≠ []) ∧
    (("Startup sector explicitly excluded by investor." ∈
        (check_hard_gates s i).2) →
      s.sectors_normalized ≠ [] ∧ i.sector_exclude_normalized ≠ []) ∧
    (("Startup business model explicitly excluded by investor." ∈
        (check_hard_gates s i).2) →
      norm_text s.business_model.primary ≠ "" ∧
        i.business_models_exclude ≠ []) ∧
    (("Startup instrument explicitly excluded by investor." ∈
        (check_hard_gates s i).2) →
      norm_text s.raiseTerms.instrument_normalized ≠ "" ∧
        i.instrument_exclude_normalized ≠ []) ∧
    (("Regulatory domain explicitly excluded by investor." ∈
        (check_hard_gates s i).2) →
      norm_text s.risk.regulatory_domain ≠ "" ∧ i.regulatory_exclude ≠ []) ∧
    (("Investor has hard geography constraint and startup is outside allowed geography." ∈
        (check_hard_gates s i).2) →
      i.geo_hard_constraint = some true) ∧
    (∀ s' : Startup,
      check_hard_gates s' (empty_investor (some "active")) = (true, [])) ∧
    check_hard_gates empty_startup (empty_investor none) =
      (false, ["Investor is not active."]) ∧
    check_hard_gates empty_startup (empty_investor (some "")) =
      (false, ["Investor is not active."]) := by
  refine ⟨?_, ?_, ?_, ?_, ?_, ?_, ?_, empty_active_eligible, by decide, by decide⟩
  · intro hmem
    rw [check_hard_gates_snd] at hmem
    rcases gate_fails_sound s i _ hmem with ⟨-, he⟩ | ⟨hc, -⟩ | ⟨-, he⟩ |
      ⟨-, he⟩ | ⟨-, he⟩ | ⟨-, he⟩ | ⟨-, he⟩ | ⟨-, he⟩
    · exact absurd he (by decide)
    · obtain ⟨cm, mt, hcm, hmt, -⟩ := hc
      rw [hcm, hmt]
      exact ⟨Option.some_ne_none cm, Option.some_ne_none mt⟩
    · exact absurd he (by decide)
    · exact absurd he (by decide)
    · exact absurd he (by decide)
    · exact absurd he (by decide)
    · exact absurd he (by decide)
    · exact absurd he (by decide)
  · intro hmem
    rw [check_hard_gates_snd] at hmem
    rcases gate_fails_sound s i _ hmem with ⟨-, he⟩ | ⟨-, he⟩ | ⟨hc, -⟩ |
      ⟨-, he⟩ | ⟨-, he⟩ | ⟨-, he⟩ | ⟨-, he⟩ | ⟨-, he⟩
    · exact absurd he (by decide)
    · exact absurd he (by decide)
    · obtain ⟨x, hx1, hx2⟩ := hc
      exact ⟨ne_nil_of_mem_lns hx1, ne_nil_of_mem_lns hx2⟩
    · exact absurd he (by decide)
    · exact absurd he (by decide)
    · exact absurd he (by decide)
    · exact absurd he (by decide)
    · exact absurd he (by decide)
  · intro hmem
    rw [check_hard_gates_snd] at hmem
    rcases gate_fails_sound s i _ hmem with ⟨-, he⟩ | ⟨-, he⟩ | ⟨-, he⟩ |
      ⟨hc, -⟩ | ⟨-, he⟩ | ⟨-, he⟩ | ⟨-, he⟩ | ⟨-, he⟩
    · exact absurd he (by decide)
    · exact absurd he (by decide)
    · exact absurd he (by decide)
    · obtain ⟨x, hx1, hx2⟩ := hc
      exact ⟨ne_nil_of_mem_lns hx1, ne_nil_of_mem_lns hx2⟩
    · exact absurd he (by decide)
    · exact absurd he (by decide)
    · exact absurd he (by decide)
    · exact absurd he (by decide)
  · intro hmem
    rw [check_hard_gates_snd] at hmem
    rcases gate_fails_sound s i _ hmem with ⟨-, he⟩ | ⟨-, he⟩ | ⟨-, he⟩ |
      ⟨-, he⟩ | ⟨hc, -⟩ | ⟨-, he⟩ | ⟨-, he⟩ | ⟨-, he⟩
    · exact absurd he (by decide)
    · exact absurd he (by decide)
    · exact absurd he (by decide)
    · exact absurd he (by decide)
    · exact ⟨hc.1, ne_nil_of_mem_lns hc.2⟩
    · exact absurd he (by decide)
    · exact absurd he (by decide)
    · exact absurd he (by decide)
  · intro hmem
    rw [check_hard_gates_snd] at hmem
    rcases gate_fails_sound s i _ hmem with ⟨-, he⟩ | ⟨-, he⟩ | ⟨-, he⟩ |
      ⟨-, he⟩ | ⟨-, he⟩ | ⟨hc, -⟩ | ⟨-, he⟩ | ⟨-, he⟩
    · exact absurd he (by decide)
    · exact absurd he (by decide)
    · exact absurd he (by decide)
    · exact absurd he (by decide)
    · exact absurd he (by decide)
    · exact ⟨hc.1, ne_nil_of_mem_lns hc.2⟩
    · exact absurd he (by decide)
    · exact absurd he (by decide)
  · intro hmem
    rw [check_hard_gates_snd] at hmem
    rcases gate_fails_sound s i _ hmem with ⟨-, he⟩ | ⟨-, he⟩ | ⟨-, he⟩ |
      ⟨-, he⟩ | ⟨-, he⟩ | ⟨-, he⟩ | ⟨hc, -⟩ | ⟨-, he⟩
    · exact absurd he (by decide)
    · exact absurd he (by decide)
    · exact absurd he (by decide)
    · exact absurd he (by decide)
    · exact absurd he (by decide)
    · exact absurd he (by decide)
    · exact ⟨hc.1, ne_nil_of_mem_lns hc.2⟩
    · exact absurd he (by decide)
  · intro hmem
    rw [check_hard_gates_snd] at hmem
    rcases gate_fails_sound s i _ hmem with ⟨-, he⟩ | ⟨-, he⟩ | ⟨-, he⟩ |
      ⟨-, he⟩ | ⟨-, he⟩ | ⟨-, he⟩ | ⟨-, he⟩ | ⟨hc, -⟩
    · exact absurd he (by decide)
    · exact absurd he (by decide)
    · exact absurd he (by decide)
    · exact absurd he (by decide)
    · exact absurd he (by decide)
    · exact absurd he (by decide)
    · exact absurd he (by decide)
    · exact hc.1

theorem mem_insert_desc (t : FitTask) (x : FitTask) :
    ∀ l : List FitTask, x ∈ insert_desc t l ↔ x = t ∨ x ∈ l := by
  intro l
  induction l with
  | nil => simp [insert_desc]
  | cons u us ih =>
      unfold insert_desc
      split_ifs with hc
      · simp only [List.mem_cons, ih]
        tauto
      · simp only [List.mem_cons]

theorem insert_desc_perm (t : FitTask) :
    ∀ l : List FitTask, List.Perm (insert_desc t l) (t :: l) := by
  intro l
  induction l with
  | nil => simp [insert_desc]
  | cons u us ih =>
      unfold insert_desc
      split_ifs with hc
      · exact (ih.cons u).trans (List.Perm.swap t u us)
      · rfl

theorem sort_desc_perm (l : List FitTask) :
    List.Perm (sort_desc_by_value l) l := by
  induction l with
  | nil => rfl
  | cons t ts ih =>
      unfold sort_desc_by_value
      exact (insert_desc_perm t _).trans (ih.cons t)

theorem insert_desc_sorted (t : FitTask) :
    ∀ l : List FitTask, l.Sorted key_ge → (insert_desc t l).Sorted key_ge := by
  intro l
  induction l with
  | nil => intro h; simp [insert_desc, key_ge]
  | cons u us ih =>
      intro h
      rw [List.sorted_cons] at h
      unfold insert_desc
      split_ifs with hc
      · rw [List.sorted_cons]
        refine ⟨?_, ih h.2⟩
        intro b hb
        rcases (mem_insert_desc t b us).mp hb with rfl | hbu
        · exact hc
        · exact h.1 b hbu
      · rw [List.sorted_cons]
        refine ⟨?_, by rw [List.sorted_cons]; exact h⟩
        intro b hb
        rcases List.mem_cons.mp hb with rfl | hbu
        · exact le_of_not_le hc
        · exact le_trans (h.1 b hbu) (le_of_not_le hc)

theorem sort_desc_sorted (l : List FitTask) :
    (sort_desc_by_value l).Sorted key_ge := by
  induction l with
  | nil => simp [sort_desc_by_value]
  | cons t ts ih =>
      unfold sort_desc_by_value
      exact insert_desc_sorted t _ ih

theorem mem_upsert {α : Type} (l : List (String × α)) (k : String) (v : α)
    (p : String × α) (h : p ∈ upsert l k v) : p = (k, v) ∨ p ∈ l := by
  unfold upsert at h
  split at h
  · rcases List.mem_map.mp h with ⟨kv, hkv, heq⟩
    by_cases hk : kv.1 = k
    · rw [if_pos hk] at heq
      exact Or.inl heq.symm
    · rw [if_neg hk] at heq
      exact Or.inr (heq ▸ hkv)
  · rcases List.mem_append.mp h with h1 | h1
    · exact Or.inr h1
    · left
      simpa using h1

theorem upsert_keys {α : Type} (l : List (String × α)) (k : String) (v : α)
    (h : (l.lookup k).isSome) :
    (upsert l k v).map Prod.fst = l.map Prod.fst := by
  unfold upsert
  rw [if_pos h, List.map_map]
  apply List.map_congr_left
  intro kv hkv
  by_cases hk : kv.1 = k
  · simp [hk]
  · simp [hk]

theorem not_mem_of_lookup_none {α : Type} (k : String) :
    ∀ l : List (String × α), l.lookup k = none → k ∉ l.map Prod.fst := by
  intro l
  induction l with
  | nil => intro _ h; simp at h
  | cons x xs ih =>
      intro hl hm
      rw [List.lookup] at hl
      cases hb : (k == x.1) with
      | true => rw [hb] at hl; simp at hl
      | false =>
          rw [hb] at hl
          rw [List.map_cons, List.mem_cons] at hm
          rcases hm with h1 | h1
          · exact (beq_eq_false_iff_ne.mp hb) h1
          · exact ih hl h1

theorem dedup_fold_mem :
    ∀ (l : List FitTask) (acc : List (String × FitTask))
      (p : String × FitTask),
      p ∈ l.foldl dedup_step acc → p ∈ acc ∨ p.2 ∈ l := by
  intro l
  induction l with
  | nil =>
      intro acc p h
      exact Or.inl h
  | cons t ts ih =>
      intro acc p h
      rw [List.foldl_cons] at h
      rcases ih _ p h with h1 | h1
      · unfold dedup_step at h1
        split at h1
        · rcases List.mem_append.mp h1 with h2 | h2
          · exact Or.inl h2
          · right
            have : p = (t.task_title, t) := by simpa using h2
            rw [this]
            simp
        · split_ifs at h1 with hv
          · rcases mem_upsert _ _ _ _ h1 with h2 | h2
            · right
              rw [h2]
              simp
            · exact Or.inl h2
          · exact Or.inl h1
      · exact Or.inr (List.mem_cons_of_mem t h1)

theorem dedup_fold_titles :
    ∀ (l : List FitTask) (acc : List (String × FitTask)),
      (∀ p ∈ acc, p.2.task_title = p.1) →
      ∀ p ∈ l.foldl dedup_step acc, p.2.task_title = p.1 := by
  intro l
  induction l with
  | nil =>
      intro acc hacc p hp
      exact hacc p hp
  | cons t ts ih =>
      intro acc hacc p hp
      rw [List.foldl_cons] at hp
      refine ih _ ?_ p hp
      intro q hq
      unfold dedup_step at hq
      split at hq
      · rcases List.mem_append.mp hq with h2 | h2
        · exact hacc q h2
        · have : q = (t.task_title, t) := by simpa using h2
          rw [this]
      · split_ifs at hq with hv
        · rcases mem_upsert _ _ _ _ hq with h2 | h2
          · rw [h2]
          · exact hacc q h2
        · exact hacc q hq

theorem dedup_fold_keys_nodup :
    ∀ (l : List FitTask) (acc : List (String × FitTask)),
      (acc.map Prod.fst).Nodup →
      ((l.foldl dedup_step acc).map Prod.fst).Nodup := by
  intro l
  induction l with
  | nil =>
      intro acc h
      exact h
  | cons t ts ih =>
      intro acc h
      rw [List.foldl_cons]
      refine ih _ ?_
      unfold dedup_step
      split
      case h_1 hlk =>
        rw [List.map_append]
        rw [List.nodup_append]
        refine ⟨h, by simp, ?_⟩
        intro a ha hb
        have : a = t.task_title := by simpa using hb
        rw [this] at ha
        exact not_mem_of_lookup_none _ acc hlk ha
      case h_2 cur hlk =>
        split_ifs with hv
        · rw [upsert_keys]
          · exact h
          · rw [hlk]
            rfl
        · exact h

theorem dedup_fold_lookup_ge :
    ∀ (l : List FitTask) (acc : List (String × FitTask)) (k : String)
      (t : FitTask), acc.lookup k = some t →
      ∃ t', (l.foldl dedup_step acc).lookup k = some t' ∧
        t.task_value ≤ t'.task_value := by
  intro l
  induction l with
  | nil =>
      intro acc k t h
      exact ⟨t, h, le_rfl⟩
  | cons u us ih =>
      intro acc k t h
      rw [List.foldl_cons]
      unfold dedup_step
      cases hlk : acc.lookup u.task_title with
      | none =>
          dsimp only
          have hne : k ≠ u.task_title := by
            intro he
            rw [he, hlk] at h
            cases h
          have hl2 : (acc ++ [(u.task_title, u)]).lookup k = some t := by
            rw [lookup_append_single_ne u.task_title k u hne acc]
            exact h
          exact ih _ k t hl2
      | some cur =>
          dsimp only
          split_ifs with hv
          · by_cases hk : k = u.task_title
            · subst hk
              have ht : t = cur := by
                rw [h] at hlk
                exact Option.some_inj.mp hlk
              have hl2 : (upsert acc u.task_title u).lookup u.task_title
                  = some u := lookup_upsert_self acc u.task_title u
              rcases ih _ u.task_title u hl2 with ⟨t', ht', hle⟩
              refine ⟨t', ht', ?_⟩
              calc t.task_value ≤ u.task_value := by
                    rw [ht]; exact le_of_lt hv
                _ ≤ t'.task_value := hle
            · have hl2 : (upsert acc u.task_title u).lookup k = some t := by
                rw [lookup_upsert_ne acc u.task_title k u hk]
                exact h
              exact ih _ k t hl2
          · exact ih _ k t h

theorem dedup_fold_dominates :
    ∀ (l : List FitTask) (acc : List (String × FitTask)),
      ∀ u ∈ l, ∃ t', (l.foldl dedup_step acc).lookup u.task_title = some t' ∧
        u.task_value ≤ t'.task_value := by
  intro l
  induction l with
  | nil =>
      intro acc u hu
      cases hu
  | cons v vs ih =>
      intro acc u hu
      rw [List.foldl_cons]
      rcases List.mem_cons.mp hu with h1 | h1
      · subst h1
        unfold dedup_step
        cases hlk : acc.lookup u.task_title with
        | none =>
            dsimp only
            have hl2 : ((acc ++ [(u.task_title, u)]).lookup u.task_title)
                = some u := by
              apply lookup_append_single
              rw [hlk]
              rfl
            exact dedup_fold_lookup_ge vs _ u.task_title u hl2
        | some cur =>
            dsimp only
            split_ifs with hv
            · exact dedup_fold_lookup_ge vs _ u.task_title u
                (lookup_upsert_self acc u.task_title u)
            · rcases dedup_fold_lookup_ge vs _ u.task_title cur hlk with
                ⟨t', ht', hle⟩
              exact ⟨t', ht', le_trans (not_lt.mp hv) hle⟩
      · exact ih _ u h1

theorem mem_lookup_of_keys_nodup {α : Type} :
    ∀ (l : List (String × α)), (l.map Prod.fst).Nodup →
      ∀ p ∈ l, l.lookup p.1 = some p.2 := by
  intro l
  induction l with
  | nil =>
      intro _ p hp
      cases hp
  | cons x xs ih =>
      intro hnd p hp
      rw [List.map_cons] at hnd
      have hx := List.nodup_cons.mp hnd
      rcases List.mem_cons.mp hp with h1 | h1
      · subst h1
        rw [List.lookup]
        simp
      · rw [List.lookup]
        have hne : (p.1 == x.1) = false := by
          apply beq_eq_false_iff_ne.mpr
          intro he
          exact hx.1 (he ▸ List.mem_map_of_mem Prod.fst h1)
        rw [hne]
        exact ih hx.2 p h1

theorem dedup_titles_eq_keys (l : List FitTask) :
    ∀ p ∈ dedup_by_title l, p.2.task_title = p.1 := by
  unfold dedup_by_title
  exact dedup_fold_titles l [] (by intro p hp; cases hp)

theorem dedup_keys_nodup (l : List FitTask) :
    ((dedup_by_title l).map Prod.fst).Nodup := by
  unfold dedup_by_title
  exact dedup_fold_keys_nodup l [] (by simp)

theorem dedup_mem_sub (l : List FitTask) (p : String × FitTask)
    (h : p ∈ dedup_by_title l) : p.2 ∈ l := by
  unfold dedup_by_title at h
  rcases dedup_fold_mem l [] p h with h1 | h1
  · cases h1
  · exact h1

theorem dedup_map_titles (l : List FitTask) :
    ((dedup_by_title l).map (·.2)).map (fun t => t.task_title) =
      (dedup_by_title l).map Prod.fst := by
  rw [List.map_map]
  apply List.map_congr_left
  intro p hp
  exact dedup_titles_eq_keys l p hp

theorem dedup_keeps_max (l : List FitTask) :
    value_keeps_title_max l ((dedup_by_title l).map (·.2)) := by
  unfold value_keeps_title_max
  rw [List.forall_iff_forall_mem]
  intro t ht
  rw [List.forall_iff_forall_mem]
  intro u hu
  by_cases htit : u.task_title = t.task_title
  · right
    rcases List.mem_map.mp ht with ⟨p, hp, hpt⟩
    have hkey : p.2.task_title = p.1 := dedup_titles_eq_keys l p hp
    have hlp : (dedup_by_title l).lookup p.1 = some p.2 :=
      mem_lookup_of_keys_nodup _ (dedup_keys_nodup l) p hp
    rcases dedup_fold_dominates l [] u hu with ⟨t', ht', hle⟩
    have hkk : u.task_title = p.1 := by
      rw [htit, ← hpt, hkey]
    rw [hkk] at ht'
    rw [show List.foldl dedup_step [] l = dedup_by_title l from rfl, hlp]
      at ht'
    have : t' = p.2 := (Option.some_inj.mp ht').symm
    rw [this] at hle
    rw [← hpt]
    exact hle
  · exact Or.inl htit

theorem py_truthy_or_nonneg (x d : ℚ) (hx : 0 ≤ x) (hd : 0 ≤ d) :
    0 ≤ py_truthy_or x d := by
  unfold py_truthy_or
  split_ifs <;> assumption

theorem calc_weight (rules : List RuleResult) (M W : ℚ) :
    (calc_category_summary rules M W).weight = round4 W := rfl

theorem cat_weights_nonneg (s : Startup) (i : Investor) :
    ∀ ckv ∈ (cat_summaries_none s i).toList, 0 ≤ ckv.2.weight := by
  intro ckv h
  rw [cat_summaries_none, CategoryBreakdown.toList] at h
  dsimp only at h
  simp only [List.mem_cons, List.not_mem_nil, or_false] at h
  rcases h with h | h | h | h | h | h
  · rw [h]; rw [calc_weight]; exact round4_nonneg (by norm_num)
  · rw [h]; rw [calc_weight]; exact round4_nonneg (by norm_num)
  · rw [h]; rw [calc_weight]; exact round4_nonneg (by norm_num)
  · rw [h]; rw [calc_weight]; exact round4_nonneg (by norm_num)
  · rw [h]; rw [calc_weight]; exact round4_nonneg (by norm_num)
  · rw [h]; rw [calc_weight]; exact round4_nonneg (by norm_num)

theorem sorted_values (l : List FitTask) (hs : l.Pairwise key_ge)
    (hnn : ∀ t ∈ l, 0 ≤ t.task_value) :
    (l.map (fun t => t.task_value)).Sorted (· ≥ ·) := by
  rw [List.Sorted, List.pairwise_map]
  refine hs.imp_of_mem ?_
  intro a b ha hb hk
  unfold key_ge sort_key at hk
  show b.task_value ≤ a.task_value
  by_cases hb0 : b.task_value = 0
  · rw [hb0]
    exact hnn a ha
  · rw [if_neg hb0] at hk
    have hbpos : 0 < b.task_value :=
      lt_of_le_of_ne (hnn b hb) (Ne.symm hb0)
    by_cases ha0 : a.task_value = 0
    · rw [if_pos ha0] at hk
      linarith
    · rw [if_neg ha0] at hk
      exact hk

theorem raw_tasks_nonneg (now : String) (so : StartupObj) (io : InvestorObj)
    (name : String) :
    ∀ t ∈ raw_tasks (manual_match now so io none) name,
      0 ≤ t.task_value := by
  intro t ht
  unfold raw_tasks at ht
  dsimp only at ht
  rw [List.mem_append] at ht
  rcases ht with hg | hi
  · split at hg
    · cases hg
    · rcases List.mem_map.mp hg with ⟨reason, hr, heq⟩
      rw [← heq]
      dsimp only
      apply round4_nonneg
      apply div_nonneg
      · rw [manual_match_none_fit_if]
        exact round4_nonneg (fit_sum_bounds so.startup io.investor).1
      · exact le_trans zero_le_one (le_max_right _ _)
  · rcases List.mem_flatten.mp hi with ⟨ll, hll, htl⟩
    rcases List.mem_map.mp hll with ⟨ckv, hckv, hlleq⟩
    rw [← hlleq] at htl
    rcases List.mem_filterMap.mp htl with ⟨skv, hskv, hf⟩
    split at hf
    · cases hf
    · have heq := Option.some_inj.mp hf
      rw [← heq]
      dsimp only
      apply round4_nonneg
      apply mul_nonneg
      · apply div_nonneg
        · exact le_max_right _ _
        · exact le_trans (by norm_num) (le_max_right _ (1/1000000000))
      · apply py_truthy_or_nonneg
        · rw [manual_match_none_breakdown] at hckv
          exact cat_weights_nonneg so.startup io.investor ckv hckv
        · exact le_refl 0

theorem gen_eq (result : MatchResult) (so : StartupObj) (io : InvestorObj)
    (n : ℕ) :
    generate_improvement_tasks result so io n =
      (sort_desc_by_value ((dedup_by_title (raw_tasks result
        (if (io.investor.name).getD "" = "" then "this investor"
         else (io.investor.name).getD ""))).map (·.2))).take n := rfl

/-- Claim C5: for every match result produced by the pipeline and every
`max_tasks` limit, the task list returned by `generate_improvement_tasks`
contains at most `max_tasks` tasks, every task has `task_value ≥ 0`, no
two tasks share a `task_title` (and when titles collide in the raw list
the kept instance carries the highest `task_value`), and the list is
sorted non-increasing by `task_value`. -/
theorem C5_task_list_properties (now : String) (so : StartupObj)
    (io : InvestorObj) (max_tasks : ℕ) :
    (generate_improvement_tasks (manual_match now so io none) so io
        max_tasks).length ≤ max_tasks ∧
    (∀ t ∈ generate_improvement_tasks (manual_match now so io none) so io
        max_tasks, 0 ≤ t.task_value) ∧
    ((generate_improvement_tasks (manual_match now so io none) so io
        max_tasks).map (fun t => t.task_title)).Nodup ∧
    ((generate_improvement_tasks (manual_match now so io none) so io
        max_tasks).map (fun t => t.task_value)).Sorted (· ≥ ·) ∧
    value_keeps_title_max
      (raw_tasks (manual_match now so io none)
        (if (io.investor.name).getD "" = "" then "this investor"
         else (io.investor.name).getD ""))
      (generate_improvement_tasks (manual_match now so io none) so io
        max_tasks) := by
  rw [gen_eq]
  generalize (if (io.investor.name).getD "" = "" then "this investor"
      else (io.investor.name).getD "") = nme
  have hnn := raw_tasks_nonneg now so io nme
  generalize hraweq : raw_tasks (manual_match now so io none) nme = raw
  rw [hraweq] at hnn
  have hmemded : ∀ t,
      t ∈ (sort_desc_by_value ((dedup_by_title raw).map
          (·.2))).take max_tasks →
      t ∈ (dedup_by_title raw).map (·.2) := by
    intro t ht
    exact ((sort_desc_perm _).mem_iff).mp (List.mem_of_mem_take ht)
  have hLnn : ∀ t ∈ (sort_desc_by_value ((dedup_by_title raw).map
      (·.2))).take max_tasks, 0 ≤ t.task_value := by
    intro t ht
    rcases List.mem_map.mp (hmemded t ht) with ⟨p, hp, hpe⟩
    rw [← hpe]
    exact hnn _ (dedup_mem_sub _ p hp)
  refine ⟨List.length_take_le _ _, hLnn, ?_, ?_, ?_⟩
  · have hnd : (((dedup_by_title raw).map (·.2)).map
        (fun t => t.task_title)).Nodup := by
      rw [dedup_map_titles]
      exact dedup_keys_nodup _
    have hnd2 := ((sort_desc_perm ((dedup_by_title raw).map (·.2))).map
        (fun t => t.task_title)).nodup_iff.mpr hnd
    rw [List.map_take]
    exact List.Nodup.sublist (List.take_sublist _ _) hnd2
  · have hp : ((sort_desc_by_value ((dedup_by_title raw).map
        (·.2))).take max_tasks).Pairwise key_ge :=
      List.Pairwise.sublist (List.take_sublist _ _) (sort_desc_sorted _)
    exact sorted_values _ hp hLnn
  · have hk := dedup_keeps_max raw
    unfold value_keeps_title_max at hk ⊢
    rw [List.forall_iff_forall_mem] at hk ⊢
    intro t ht
    exact hk t (hmemded t ht)
